import Mathlib

/-!
Shallow embedding of the hand-written `RestClient` orchestration layer of the
ONTAP REST storage driver (file `api_rest.go`, package `api`), together with
proofs about its job-polling, pagination and by-name volume operations.

Modelling conventions:
* Go pointers become `Option`; a Go multiple return `(T, error)` becomes a
  pair `Option T × Option Err` (a `none` error is Go's `nil` error).
* A REST call's outcome is an oracle value (or a sequence of oracle values,
  indexed by the attempt number) passed to the embedded function.
* A Go nil-pointer dereference is the explicit result `GoResult.panicked`.
* Durations are natural numbers of milliseconds.
* The generated `models` package is outside the embedded sources; the few
  enumeration constants taken from it are modelled as the distinct strings
  of the ONTAP API, which is all the code under proof depends on.
-/

namespace TridentRest

/-- Go `error` values produced by the RestClient: either a `fmt.Errorf`
message, or the structured error `NewRestErrorFromPayload` builds from a
failed job's payload (state, message, code). -/
inductive Err where
  | msg (s : String)
  | restError (state : Option String) (message : Option String) (code : Option Int)
deriving DecidableEq, Repr

/-- Result of running a Go function body: a returned value, or a runtime
panic (nil-pointer dereference, index out of range). -/
inductive GoResult (α : Type) where
  | ret (a : α)
  | panicked
deriving DecidableEq, Repr

/-- Modelled from the spec: terminal job state "success" (constant
`models.JobStateSuccess` of the generated models package, absent from the
embedded sources; the spec names success as one of the two terminal states). -/
def JobStateSuccess : String := "success"

/-- Modelled from the spec: terminal job state "failure"
(`models.JobStateFailure`). -/
def JobStateFailure : String := "failure"

/-- Modelled from the spec: non-terminal job state "paused"
(`models.JobStatePaused`). -/
def JobStatePaused : String := "paused"

/-- Modelled from the spec: non-terminal job state "running"
(`models.JobStateRunning`). -/
def JobStateRunning : String := "running"

/-- Modelled from the spec: non-terminal job state "queued"
(`models.JobStateQueued`). -/
def JobStateQueued : String := "queued"

/-- The fields of `models.Job` (a fetched job record) that the RestClient
reads: state, message and code, each behind a pointer. -/
structure Job where
  state : Option String
  message : Option String
  code : Option Int
deriving DecidableEq, Repr

/-- `cluster.JobGetOK`: the 200-response wrapper of a job fetch; its
`Payload` is a pointer to the job record. -/
structure JobGetOK where
  payload : Option Job
deriving DecidableEq, Repr

/-- `models.JobLink`: carries the job's UUID behind a pointer. -/
structure JobLink where
  uuid : Option String
deriving DecidableEq, Repr

/-- `models.JobLinkResponse`: the async-accepted payload pointing at the job. -/
structure JobLinkResponse where
  job : Option JobLink
deriving DecidableEq, Repr

/-- The Go pair returned by `c.JobGet`: `(*cluster.JobGetOK, error)`. -/
abbrev JobGetRet := Option JobGetOK × Option Err

/-- Embedding of `RestClient.IsJobFinished`. `jobGetRes` is the outcome of
the single `c.JobGet` call the function makes. The nil-payload, nil-job and
nil-uuid guards return `(false, err)`; after a successful fetch the job
state is switched on: success/failure are terminal (`true, nil`),
paused/running/queued non-terminal (`false, nil`), anything else an error.
Dereferencing a nil fetch result or nil fetched payload panics, as in Go. -/
def IsJobFinished (jobGetRes : JobGetRet) (payload : Option JobLinkResponse) :
    GoResult (Bool × Option Err) :=
  match payload with
  | none => .ret (false, some (.msg "payload is nil"))
  | some pl =>
    match pl.job with
    | none => .ret (false, some (.msg "payload's Job is nil"))
    | some job =>
      match job.uuid with
      | none => .ret (false, some (.msg "payload's Job uuid is nil"))
      | some _ =>
        match jobGetRes with
        | (_, some e) => .ret (false, some e)
        | (none, none) => .panicked
        | (some okRes, none) =>
          match okRes.payload with
          | none => .panicked
          | some j =>
            match j.state with
            | none => .ret (false, some (.msg "unexpected nil job state "))
            | some s =>
              if s = JobStateSuccess then .ret (true, none)
              else if s = JobStateFailure then .ret (true, none)
              else if s = JobStatePaused then .ret (false, none)
              else if s = JobStateRunning then .ret (false, none)
              else if s = JobStateQueued then .ret (false, none)
              else .ret (false, some (.msg ("unexpected job state " ++ s)))

/-- A job-link payload that passes all three nil guards: a response whose
job and uuid pointers are set. -/
def validJobPayload (u : String) : Option JobLinkResponse :=
  some ⟨some ⟨some u⟩⟩

/-! ## Exponential backoff (github.com/cenkalti/backoff/v4)

The RestClient builds every polling loop from `backoff.NewExponentialBackOff`
and `backoff.RetryNotify`. The library's state is the current nominal
interval (doubling up to `MaxInterval`) and the elapsed time; `NextBackOff`
draws the real sleep uniformly from
`[(1-RandomizationFactor)·interval, (1+RandomizationFactor)·interval]` and
returns `Stop` when `elapsed + next` would exceed `MaxElapsedTime`.
`RetryNotify` runs the operation, returns nil on success, and otherwise
sleeps and retries until `Stop`, returning the last error. The realized
sleeps are an oracle `sleeps : ℕ → ℕ` (milliseconds), constrained by
`ValidSleeps` to the randomization window. -/

/-- The tunable fields of `backoff.ExponentialBackOff` that the RestClient
sets or relies on. Durations in milliseconds; the multiplier and
randomization factor are rationals. -/
structure ExponentialBackOff where
  initialInterval : ℕ
  multiplier : ℚ
  randomizationFactor : ℚ
  maxInterval : ℕ
  maxElapsedTime : ℕ
deriving DecidableEq, Repr

/-- `backoff.NewExponentialBackOff()`: the library defaults (500ms initial
interval, multiplier 1.5, randomization 0.5, 60s max interval, 15min cap). -/
def NewExponentialBackOff : ExponentialBackOff :=
  { initialInterval := 500
    multiplier := 3/2
    randomizationFactor := 1/2
    maxInterval := 60000
    maxElapsedTime := 900000 }

/-- The backoff `PollJobStatus` configures: 1s initial interval,
multiplier 2, randomization 0.1, 2 minute cap. -/
def jobStatusBackoff : ExponentialBackOff :=
  { NewExponentialBackOff with
    initialInterval := 1000
    multiplier := 2
    randomizationFactor := 1/10
    maxElapsedTime := 120000 }

/-- The backoff `waitForVolume` configures: as above with a 1 minute cap. -/
def volumeStatusBackoff : ExponentialBackOff :=
  { NewExponentialBackOff with
    initialInterval := 1000
    multiplier := 2
    randomizationFactor := 1/10
    maxElapsedTime := 60000 }

/-- The backoff `waitForFlexgroup` configures: as above with a 1 minute cap. -/
def flexgroupStatusBackoff : ExponentialBackOff :=
  { NewExponentialBackOff with
    initialInterval := 1000
    multiplier := 2
    randomizationFactor := 1/10
    maxElapsedTime := 60000 }

/-- The backoff `pollLunCreate` configures: as above with a 2 minute cap. -/
def lunCreateStatusBackoff : ExponentialBackOff :=
  { NewExponentialBackOff with
    initialInterval := 1000
    multiplier := 2
    randomizationFactor := 1/10
    maxElapsedTime := 120000 }

/-- The nominal (pre-randomization) interval before the `n`-th sleep: the
initial interval grown by the multiplier and clipped at `maxInterval`
(`incrementCurrentInterval` in the library). -/
def nominalInterval (b : ExponentialBackOff) (n : ℕ) : ℚ :=
  min (b.initialInterval * b.multiplier ^ n) b.maxInterval

/-- The realized sleeps lie in the randomization window
`[(1-r)·interval, (1+r)·interval]` around each nominal interval
(`getRandomValueFromInterval` in the library). -/
def ValidSleeps (b : ExponentialBackOff) (sleeps : ℕ → ℕ) : Prop :=
  ∀ n, (1 - b.randomizationFactor) * nominalInterval b n ≤ (sleeps n : ℚ) ∧
    (sleeps n : ℚ) ≤ (1 + b.randomizationFactor) * nominalInterval b n

/-- Embedding of `backoff.RetryNotify` for an operation that cannot panic.
`check n` is the `n`-th run of the operation (`none` = success); `elapsed`
tracks the milliseconds slept so far; the loop stops with the last error
once `elapsed + next` would pass the cap. The `fuel` argument only bounds
the modelled recursion: `none` means the loop was still running after
`fuel` iterations. -/
def retryFuel (check : ℕ → Option Err) (sleeps : ℕ → ℕ) (cap : ℕ) :
    ℕ → ℕ → ℕ → Option (Option Err)
  | 0, _, _ => none
  | fuel + 1, n, elapsed =>
    match check n with
    | none => some none
    | some e =>
      if cap < elapsed + sleeps n then some (some e)
      else retryFuel check sleeps cap fuel (n + 1) (elapsed + sleeps n)

/-- `backoff.RetryNotify(check, b)` with `b.MaxElapsedTime = cap`: run the
fueled loop from attempt 0, with enough fuel for every sleep sequence that
advances time (see `retryFuel_total`). -/
def retryNotify (check : ℕ → Option Err) (sleeps : ℕ → ℕ) (cap : ℕ) : Option (Option Err) :=
  retryFuel check sleeps cap (cap + 2) 0 0

/-- Embedding of `backoff.RetryNotify` for an operation whose body may
panic (the job-status check); a panic aborts the whole loop. -/
def retryFuelGo (check : ℕ → GoResult (Option Err)) (sleeps : ℕ → ℕ) (cap : ℕ) :
    ℕ → ℕ → ℕ → Option (GoResult (Option Err))
  | 0, _, _ => none
  | fuel + 1, n, elapsed =>
    match check n with
    | .panicked => some .panicked
    | .ret none => some (.ret none)
    | .ret (some e) =>
      if cap < elapsed + sleeps n then some (.ret (some e))
      else retryFuelGo check sleeps cap fuel (n + 1) (elapsed + sleeps n)

/-- `backoff.RetryNotify` for a possibly panicking operation, from attempt 0. -/
def retryNotifyGo (check : ℕ → GoResult (Option Err)) (sleeps : ℕ → ℕ) (cap : ℕ) :
    Option (GoResult (Option Err)) :=
  retryFuelGo check sleeps cap (cap + 2) 0 0

/-- The sleep sequence with randomization deviation zero: each sleep is
exactly the nominal interval (1s doubling, clipped at the library's 60s
maximum interval). -/
def nominalSleeps (n : ℕ) : ℕ :=
  min (1000 * 2 ^ n) 60000

/-- All four RestClient backoff configurations share the fields
1s initial interval, multiplier 2, randomization 0.1, 60s max interval. -/
def RestBackoffFields (b : ExponentialBackOff) : Prop :=
  b.initialInterval = 1000 ∧ b.multiplier = 2 ∧
    b.randomizationFactor = 1/10 ∧ b.maxInterval = 60000

/-- The closure `checkJobStatus` inside `PollJobStatus`: run `IsJobFinished`
(whose one `JobGet` call at attempt `n` returns `jobGet n`); propagate its
error, report "not yet done" when unfinished, succeed when finished. -/
def jobCheckStatus (jobGet : ℕ → JobGetRet) (payload : Option JobLinkResponse)
    (jobUUID : String) (n : ℕ) : GoResult (Option Err) :=
  match IsJobFinished (jobGet n) payload with
  | .panicked => .panicked
  | .ret (_, some e) => .ret (some e)
  | .ret (false, none) => .ret (some (.msg ("job " ++ jobUUID ++ " not yet done")))
  | .ret (true, none) => .ret none

/-- Embedding of `RestClient.waitForVolume`'s polling loop. The closure
`checkStatus` calls `c.VolumeExists` (outcome `volumeExists n` at attempt
`n`); a missing volume reports "does not exit", otherwise the call's error
is returned (nil on success). The loop uses `volumeStatusBackoff`. -/
def waitForVolume (volumeExists : ℕ → Bool × Option Err) (sleeps : ℕ → ℕ) :
    Option (Option Err) :=
  retryNotify
    (fun n =>
      if (volumeExists n).1 = false then
        some (.msg "volume does not exit, will continue checking")
      else (volumeExists n).2)
    sleeps volumeStatusBackoff.maxElapsedTime

/-- Embedding of `RestClient.waitForFlexgroup`'s polling loop, over the
outcomes of `c.FlexGroupExists`, with `flexgroupStatusBackoff`. -/
def waitForFlexgroup (flexgroupExists : ℕ → Bool × Option Err) (sleeps : ℕ → ℕ) :
    Option (Option Err) :=
  retryNotify
    (fun n =>
      if (flexgroupExists n).1 = false then
        some (.msg "FlexGroup does not exit, will continue checking")
      else (flexgroupExists n).2)
    sleeps flexgroupStatusBackoff.maxElapsedTime

/-- The fields of `models.Lun` the polling code needs (only nilness of the
record matters). -/
structure Lun where
  name : Option String
deriving DecidableEq, Repr

/-- Embedding of `RestClient.pollLunCreate`'s polling loop. The closure
`checkCreateStatus` calls `c.LunGetByName` (outcome `lunGet n`): a call
error is returned, a nil LUN reports "could not find LUN", a found LUN
succeeds. The loop uses `lunCreateStatusBackoff`. -/
def pollLunCreate (lunGet : ℕ → Option Lun × Option Err) (sleeps : ℕ → ℕ) :
    Option (Option Err) :=
  retryNotify
    (fun n =>
      match lunGet n with
      | (_, some e) => some e
      | (none, none) => some (.msg "could not find LUN with name")
      | (some _, none) => none)
    sleeps lunCreateStatusBackoff.maxElapsedTime

/-- The post-loop tail of `RestClient.PollJobStatus`: re-fetch the job once
(`finalFetch` is the outcome of that `JobGet`); propagate a fetch error,
report a nil result, panic on a nil fetched payload (the logging statement
dereferences it), and switch on the final state: success is a nil error,
failure becomes `NewRestErrorFromPayload(jobResult.Payload)`, a nil or
unknown state is an error. -/
def pollJobFinal (uuid : String) (finalFetch : JobGetRet) : GoResult (Option Err) :=
  match finalFetch with
  | (_, some e) => .ret (some e)
  | (none, none) => .ret (some (.msg ("missing job result for job UUID " ++ uuid)))
  | (some okRes, none) =>
    match okRes.payload with
    | none => .panicked
    | some j =>
      match j.state with
      | none => .ret (some (.msg "unexpected nil job state "))
      | some s =>
        if s = JobStateSuccess then .ret none
        else if s = JobStateFailure then .ret (some (.restError j.state j.message j.code))
        else .ret (some (.msg ("unexpected job state " ++ s)))

/-- Embedding of `RestClient.PollJobStatus`. Guard the nil job and nil uuid
(dereferencing a nil `payload` itself panics), run the backoff loop of
`jobCheckStatus` (the `n`-th `JobGet` inside the loop returns `jobGet n`)
under `jobStatusBackoff`, return the loop's last error on timeout, and after
a converged loop run the post-loop tail `pollJobFinal`. The outer `none`
means the loop was still running after the modelled fuel, which cannot
happen for positive sleeps. -/
def PollJobStatus (jobGet : ℕ → JobGetRet) (finalFetch : JobGetRet) (sleeps : ℕ → ℕ)
    (payload : Option JobLinkResponse) : Option (GoResult (Option Err)) :=
  match payload with
  | none => some .panicked
  | some pl =>
    match pl.job with
    | none => some (.ret (some (.msg "missing job result")))
    | some job =>
      match job.uuid with
      | none => some (.ret (some (.msg "missing job uuid for result")))
      | some uuid =>
        match retryNotifyGo (jobCheckStatus jobGet payload uuid) sleeps
            jobStatusBackoff.maxElapsedTime with
        | none => none
        | some .panicked => some .panicked
        | some (.ret (some e)) => some (.ret (some e))
        | some (.ret none) => some (pollJobFinal uuid finalFetch)

/-- Convergence of the polling loop inside `PollJobStatus` for a given
payload and uuid: the backoff retry finished with a nil error. -/
def PollLoopConverged (jobGet : ℕ → JobGetRet) (payload : Option JobLinkResponse)
    (uuid : String) (sleeps : ℕ → ℕ) : Prop :=
  retryNotifyGo (jobCheckStatus jobGet payload uuid) sleeps
    jobStatusBackoff.maxElapsedTime = some (.ret none)

/-! ## The reflective `HasNextLink`

`HasNextLink` takes an `interface\x7b\x7d` and walks `Links`, then `Next`, then
`Href` by reflection, indirecting through at most one pointer at each step,
with a deferred `recover` that turns any reflection panic into `false`.
`GoVal` models the Go values reachable here: the nil interface, pointers
(possibly nil), structs with named fields, and strings. -/

/-- A reflected Go value: nil interface, pointer, struct, or string. -/
inductive GoVal where
  | nilIface : GoVal
  | ptr : Option GoVal → GoVal
  | strukt : List (String × GoVal) → GoVal
  | str : String → GoVal

/-- Field lookup in a struct's field list (`reflect.Value.FieldByName` on a
struct value: the zero `Value` when the name is absent). -/
def lookupField : List (String × GoVal) → String → Option GoVal
  | [], _ => none
  | (k, v) :: rest, name => if k = name then some v else lookupField rest name

/-- One stage of the reflective walk: `reflect.ValueOf`, one `Indirect` if
the value is a pointer, then `FieldByName name`. `Except.error` is a
reflection panic: `FieldByName` on a non-struct value, on the zero `Value`
a nil pointer indirects to, or `Kind()` of the nil interface. `Except.ok
none` is a present struct without that field (invalid but no panic). -/
def fieldByName : GoVal → String → Except Unit (Option GoVal)
  | .strukt fields, name => .ok (lookupField fields name)
  | .ptr (some (.strukt fields)), name => .ok (lookupField fields name)
  | _, _ => .error ()

/-- `reflect.Value.String()`: the underlying string for a string value; for
every other kind, a non-empty placeholder of the form "<T Value>". -/
def goString : GoVal → String
  | .str s => s
  | _ => "<T Value>"

/-- The body of `HasNextLink` before the deferred `recover`: nil input is
false; otherwise look up `Links`, then `Next`, then `Href`, returning false
on a missing field and the non-emptiness of `Href`'s reflected string at
the end; a reflection panic is `Except.error`. -/
def hasNextLinkCore (restResult : GoVal) : Except Unit Bool :=
  match restResult with
  | .nilIface => .ok false
  | v =>
    match fieldByName v "Links" with
    | .error () => .error ()
    | .ok none => .ok false
    | .ok (some links) =>
      match fieldByName links "Next" with
      | .error () => .error ()
      | .ok none => .ok false
      | .ok (some next) =>
        match fieldByName next "Href" with
        | .error () => .error ()
        | .ok none => .ok false
        | .ok (some href) => .ok (goString href ≠ "")

/-- Embedding of the package-level `HasNextLink`: run the reflective walk;
the deferred `recover` turns a panic into the result false. -/
def HasNextLink (restResult : GoVal) : Bool :=
  match hasNextLinkCore restResult with
  | .ok b => b
  | .error () => false

/-- The three-step reflective walk shared by the characterizations below:
the `Href` value reached through `Links` then `Next`, or `none` when a step
panics or a field is missing. -/
def hrefOfWalk (v : GoVal) : Option GoVal :=
  match fieldByName v "Links" with
  | .error () => none
  | .ok none => none
  | .ok (some links) =>
    match fieldByName links "Next" with
    | .error () => none
    | .ok none => none
    | .ok (some next) =>
      match fieldByName next "Href" with
      | .error () => none
      | .ok none => none
      | .ok (some href) => some href

/-- Set out from the spec's words, for comparison with `HasNextLink`: the
input (or what it points to) has a `Links.Next.Href` chain (each link
possibly behind one pointer) whose href string is non-empty. -/
def specHasNextHref (v : GoVal) : Bool :=
  match hrefOfWalk v with
  | some (.str s) => s ≠ ""
  | _ => false

/-- The general characterization `HasNextLink` does satisfy: the walk to
`Href` succeeds and `Href`'s reflected string (`goString`) is non-empty. -/
def reflectedNextHref (v : GoVal) : Bool :=
  match hrefOfWalk v with
  | some href => goString href ≠ ""
  | none => false

/-- A sample pagination payload for witnesses: a pointer to a struct whose
`Links.Next.Href` chain ends in the string "/api/next". -/
def sampleHrefVal : GoVal :=
  .str "/api/next"

/-- The `Next` link of the sample payload: a pointer to a struct with the
`Href` field. -/
def sampleNextVal : GoVal :=
  .ptr (some (.strukt [("Href", sampleHrefVal)]))

/-- The `Links` value of the sample payload. -/
def sampleLinksVal : GoVal :=
  .ptr (some (.strukt [("Next", sampleNextVal)]))

/-- The sample payload itself. -/
def samplePageVal : GoVal :=
  .ptr (some (.strukt [("Links", sampleLinksVal)]))

/-! ## Pagination

`getAllVolumePayloadRecords` and the inline loop of `AggregateList` merge
paginated collection responses: while the current payload has a next link,
fetch the next page, stop on a fetch error or a degenerate page, and
otherwise add the page's `NumRecords` and append its records. The fetches
are an oracle list: the `i`-th element is the outcome of the `i`-th
follow-the-link call; an exhausted list (`none` result) means the loop was
still running after that many pages. -/

/-- `models.Href`: the generated link struct, one string field. -/
structure Href where
  href : String
deriving DecidableEq, Repr

/-- The generated `...InlineLinks` struct: the `Next` link pointer (the
`Self` link plays no role in the client). -/
structure CollectionLinks where
  next : Option Href
deriving DecidableEq, Repr

/-- A collection response payload (`models.VolumeResponse`,
`models.AggregateResponse`, ...): record count and records behind pointers
(`records` is `none` for a nil slice), and the links struct pointer. -/
structure Page (α : Type) where
  numRecords : Option Int
  records : Option (List α)
  links : Option CollectionLinks
deriving DecidableEq, Repr

/-- A collection 200-response wrapper (`storage.VolumeCollectionGetOK`,
`storage.AggregateCollectionGetOK`): payload behind a pointer. -/
structure PageOK (α : Type) where
  payload : Option (Page α)
deriving DecidableEq, Repr

/-- The Go pair returned by one collection call: `(*XxxCollectionGetOK, error)`. -/
abbrev FetchRet (α : Type) := Option (PageOK α) × Option Err

/-- The reflected value of an `models.Href` struct. -/
def Href.toGoVal (h : Href) : GoVal :=
  .strukt [("Href", .str h.href)]

/-- The reflected value of a links struct: the `Next` pointer field. -/
def CollectionLinks.toGoVal (l : CollectionLinks) : GoVal :=
  .strukt [("Next", .ptr (l.next.map Href.toGoVal)), ("Self", .ptr none)]

/-- The reflected value of a payload struct: only the `Links` pointer field
matters to the reflective walk (`HasNextLink` reads no other field name). -/
def Page.toGoVal {α : Type} (p : Page α) : GoVal :=
  .strukt [("Links", .ptr (p.links.map CollectionLinks.toGoVal))]

/-- `HasNextLink(payload)` at a pagination call site: the payload pointer is
non-nil there, so the reflected value is a pointer to the payload struct. -/
def pageHasNext {α : Type} (p : Page α) : Bool :=
  HasNextLink (.ptr (some p.toGoVal))

/-- Go's `append(dst, src...)`: appending no elements returns `dst`
unchanged (a nil slice stays nil); otherwise the result holds both lists'
elements. -/
def goAppend {α : Type} (a b : Option (List α)) : Option (List α) :=
  match b with
  | none => a
  | some [] => a
  | some bs => some (a.getD [] ++ bs)

/-- The shared pagination loop body (the `for` of
`getAllVolumePayloadRecords` and the `done`-flag `NextLoop` of
`AggregateList` behave identically): on a fetch error return `(nil, err)`;
on a nil result, nil payload or nil `NumRecords` stop and return the
accumulated payload; otherwise add `NumRecords` (a nil accumulator count is
first initialized to 0), append the records, and continue while the fetched
page has a next link. -/
def paginateLoop {α : Type} : List (FetchRet α) → Page α →
    Option (Option (Page α) × Option Err)
  | [], _ => none
  | f :: rest, acc =>
    match f with
    | (_, some e) => some (none, some e)
    | (none, none) => some (some acc, none)
    | (some okp, none) =>
      match okp.payload with
      | none => some (some acc, none)
      | some pnext =>
        match pnext.numRecords with
        | none => some (some acc, none)
        | some k =>
          let acc2 : Page α :=
            ⟨some (acc.numRecords.getD 0 + k), goAppend acc.records pnext.records, acc.links⟩
          if pageHasNext pnext then paginateLoop rest acc2
          else some (some acc2, none)

/-- Embedding of `RestClient.getAllVolumePayloadRecords`: if the payload
(which may be a nil pointer, on which `HasNextLink` is false) has a next
link, run the pagination loop, else return the payload unchanged with a
nil error. -/
def getAllVolumePayloadRecords {α : Type} (payload : Option (Page α))
    (fetches : List (FetchRet α)) : Option (Option (Page α) × Option Err) :=
  match payload with
  | none => some (none, none)
  | some p =>
    if pageHasNext p then paginateLoop fetches p
    else some (some p, none)

/-- Embedding of `RestClient.AggregateList` after parameter building:
`initial` is the first `AggregateCollectionGet` outcome (error returned as
`(nil, err)`, nil result as `(nil, nil)`); then the same pagination loop
merges into `result.Payload`, and `result` is returned. The result's outer
`Option` is loop progress, then the `result` pointer, then its payload
pointer. -/
def AggregateList {α : Type} (initial : FetchRet α) (fetches : List (FetchRet α)) :
    Option (Option (Option (Page α)) × Option Err) :=
  match initial with
  | (_, some e) => some (none, some e)
  | (none, none) => some (none, none)
  | (some okp, none) =>
    match okp.payload with
    | none => some (some none, none)
    | some p =>
      if pageHasNext p then
        match paginateLoop fetches p with
        | none => none
        | some (res, err) => some (res.map some, err)
      else some (some (some p), none)

/-- Spec-side: the fetched page a loop iteration merges, if the iteration
merges one: the fetch must succeed with a non-nil result, payload and
record count. -/
def goodPage {α : Type} (f : FetchRet α) : Option (Page α) :=
  match f with
  | (some okp, none) =>
    match okp.payload with
    | some p => match p.numRecords with
      | some _ => some p
      | none => none
    | none => none
  | _ => none

/-- Spec-side, set out from the spec's words: the pages the loop merges, in
fetch order — every good page, up to and including the first one that
carries no further next link. -/
def specMergedPages {α : Type} : List (FetchRet α) → List (Page α)
  | [] => []
  | f :: rest =>
    match goodPage f with
    | none => []
    | some p => if pageHasNext p then p :: specMergedPages rest else [p]

/-- Spec-side: the error the loop stops with, if an error is hit while
every earlier page was good and had a next link. -/
def specLoopError {α : Type} : List (FetchRet α) → Option Err
  | [] => none
  | f :: rest =>
    match f with
    | (_, some e) => some e
    | _ =>
      match goodPage f with
      | none => none
      | some p => if pageHasNext p then specLoopError rest else none

/-- Spec-side: the fetch sequence keeps the loop running forever — every
fetch yields a good page with a further next link. -/
def allGoodWithNext {α : Type} (fetches : List (FetchRet α)) : Bool :=
  fetches.all fun f =>
    match goodPage f with
    | some p => pageHasNext p
    | none => false

/-- Spec-side: the payload after merging a list of good pages into `init`:
records concatenated in order, `NumRecords` summed (a nil initial count
reads as 0, and stays nil when nothing is merged), links untouched. -/
def mergeResult {α : Type} (init : Page α) (pages : List (Page α)) : Page α :=
  ⟨(if pages.isEmpty then init.numRecords
    else some (init.numRecords.getD 0 + (pages.map fun p => p.numRecords.getD 0).sum)),
   pages.foldl (fun r p => goAppend r p.records) init.records,
   init.links⟩

/-! ## Volumes by name and style -/

/-- Modelled from the spec: volume style "flexvol" (`models.VolumeStyleFlexvol`;
the glossary names FlexVol as one of the two container styles). -/
def VolumeStyleFlexvol : String := "flexvol"

/-- Modelled from the spec: volume style "flexgroup"
(`models.VolumeStyleFlexgroup`). -/
def VolumeStyleFlexgroup : String := "flexgroup"

/-- Modelled from the spec: volume state "online" (`models.VolumeStateOnline`). -/
def VolumeStateOnline : String := "online"

/-- Modelled from the spec: volume state "offline" (`models.VolumeStateOffline`). -/
def VolumeStateOffline : String := "offline"

/-- Modelled from the spec: volume state "mixed" (`models.VolumeStateMixed`). -/
def VolumeStateMixed : String := "mixed"

/-- Modelled from the spec: volume state "error" (`models.VolumeStateError`). -/
def VolumeStateError : String := "error"

/-- The fields of `models.Volume` the by-name operations read: UUID, name,
size and the NAS sub-struct, each behind a pointer. -/
structure VolumeNas where
  path : Option String
deriving DecidableEq, Repr

/-- A volume record (`models.Volume`), restricted to the fields the
operations under proof dereference. -/
structure Volume where
  uuid : Option String
  name : Option String
  size : Option Int
  nas : Option VolumeNas
deriving DecidableEq, Repr

/-- Embedding of `RestClient.getAllVolumesByPatternStyleAndState`: reject an
unknown style or state, issue the collection query (`initial`), and merge
further pages with `getAllVolumePayloadRecords`; a pagination error is
returned together with the result wrapper whose payload the helper nilled. -/
def getAllVolumesByPatternStyleAndState (style state : String)
    (initial : FetchRet Volume) (fetches : List (FetchRet Volume)) :
    Option (Option (PageOK Volume) × Option Err) :=
  if style ≠ VolumeStyleFlexvol ∧ style ≠ VolumeStyleFlexgroup then
    some (none, some (.msg ("unknown volume style " ++ style)))
  else if state ≠ VolumeStateOnline ∧ state ≠ VolumeStateOffline ∧
      state ≠ VolumeStateMixed ∧ state ≠ VolumeStateError ∧ state ≠ "" then
    some (none, some (.msg ("unknown volume state " ++ state)))
  else
    match initial with
    | (_, some e) => some (none, some e)
    | (none, none) => some (none, none)
    | (some okp, none) =>
      match getAllVolumePayloadRecords okp.payload fetches with
      | none => none
      | some (newPayload, err) => some (some ⟨newPayload⟩, err)

/-- Embedding of `RestClient.getVolumeByNameAndStyle`: query online volumes
matching the name; `(nil, nil)` on a nil result, payload or record count or
a zero count; the single record when the count is 1 and the record slice is
non-nil (indexing an empty slice panics); otherwise the non-unique error. -/
def getVolumeByNameAndStyle (volumeName style : String) (initial : FetchRet Volume)
    (fetches : List (FetchRet Volume)) : Option (GoResult (Option Volume × Option Err)) :=
  match getAllVolumesByPatternStyleAndState style VolumeStateOnline initial fetches with
  | none => none
  | some (result, err) =>
    match err with
    | some e => some (.ret (none, some e))
    | none =>
      match result with
      | none => some (.ret (none, none))
      | some okp =>
        match okp.payload with
        | none => some (.ret (none, none))
        | some p =>
          match p.numRecords with
          | none => some (.ret (none, none))
          | some k =>
            if k = 0 then some (.ret (none, none))
            else if k = 1 then
              match p.records with
              | none => some (.ret (none, some (.msg
                  ("could not find unique volume with name " ++ volumeName))))
              | some [] => some .panicked
              | some (v :: _) => some (.ret (some v, none))
            else some (.ret (none, some (.msg
              ("could not find unique volume with name " ++ volumeName))))

/-- Embedding of `RestClient.checkVolumeExistsByNameAndStyle`: the empty
name is `(false, nil)` before any call; then existence is the non-nilness
of the by-name lookup's record, errors passed through. -/
def checkVolumeExistsByNameAndStyle (volumeName style : String)
    (initial : FetchRet Volume) (fetches : List (FetchRet Volume)) :
    Option (GoResult (Bool × Option Err)) :=
  if volumeName = "" then some (.ret (false, none))
  else
    match getVolumeByNameAndStyle volumeName style initial fetches with
    | none => none
    | some .panicked => some .panicked
    | some (.ret (volume, err)) =>
      match err with
      | some e => some (.ret (false, some e))
      | none =>
        match volume with
        | none => some (.ret (false, none))
        | some _ => some (.ret (true, none))

/-! ## By-name mutating operations

Each operation is look up by name, build one request, issue one async call,
poll the returned job. The effects are oracle parameters in program order:
`lookup` is the value pair `getVolumeByNameAndStyle` returned, `modify` the
async-accepted mutation call's outcome, and `jobGet`/`finalFetch`/`sleeps`
drive `PollJobStatus` on the accepted payload. Parameter building (sizes,
paths, QoS structs) has no effect on this control flow and is not modelled
beyond the explicitly checked conditions. -/

/-- An async-accepted mutation response (`storage.VolumeModifyAccepted`,
`storage.VolumeDeleteAccepted`, `storage.VolumeCreateAccepted`, ...): the
job-link payload behind a pointer. -/
structure JobAccepted where
  payload : Option JobLinkResponse
deriving DecidableEq, Repr

/-- The Go pair returned by an async-accepted mutation call. -/
abbrev AcceptedRet := Option JobAccepted × Option Err

/-- Embedding of `RestClient.setVolumeSizeByNameAndStyle`: propagate a
lookup error, report a missing volume or UUID, then issue `VolumeModify`
and poll the returned job. -/
def setVolumeSizeByNameAndStyle (lookup : Option Volume × Option Err)
    (modify : AcceptedRet) (jobGet : ℕ → JobGetRet) (finalFetch : JobGetRet)
    (sleeps : ℕ → ℕ) : Option (GoResult (Option Err)) :=
  match lookup with
  | (_, some e) => some (.ret (some e))
  | (none, none) => some (.ret (some (.msg "could not find volume with name")))
  | (some v, none) =>
    match v.uuid with
    | none => some (.ret (some (.msg "could not find volume uuid with name")))
    | some _ =>
      match modify with
      | (_, some e) => some (.ret (some e))
      | (none, none) => some (.ret (some (.msg "unexpected response from volume modify")))
      | (some acc, none) => PollJobStatus jobGet finalFetch sleeps acc.payload

/-- Embedding of `RestClient.destroyVolumeByNameAndStyle`: as above with
`VolumeDelete` (whose nil-response message says "volume create", as in the
source). -/
def destroyVolumeByNameAndStyle (lookup : Option Volume × Option Err)
    (delete : AcceptedRet) (jobGet : ℕ → JobGetRet) (finalFetch : JobGetRet)
    (sleeps : ℕ → ℕ) : Option (GoResult (Option Err)) :=
  match lookup with
  | (_, some e) => some (.ret (some e))
  | (none, none) => some (.ret (some (.msg "could not find volume: ")))
  | (some v, none) =>
    match v.uuid with
    | none => some (.ret (some (.msg "could not find volume uuid: ")))
    | some _ =>
      match delete with
      | (_, some e) => some (.ret (some e))
      | (none, none) => some (.ret (some (.msg "unexpected response from volume create")))
      | (some acc, none) => PollJobStatus jobGet finalFetch sleeps acc.payload

/-- Embedding of `RestClient.renameVolumeByNameAndStyle`. The source checks
`volume == nil` a second time where its siblings check `volume.UUID == nil`
(the message of that dead branch names the uuid), so a non-nil record with
a nil UUID reaches `uuid := *volume.UUID` and panics. -/
def renameVolumeByNameAndStyle (lookup : Option Volume × Option Err)
    (modify : AcceptedRet) (jobGet : ℕ → JobGetRet) (finalFetch : JobGetRet)
    (sleeps : ℕ → ℕ) : Option (GoResult (Option Err)) :=
  match lookup with
  | (_, some e) => some (.ret (some e))
  | (none, none) => some (.ret (some (.msg "could not find volume with name")))
  | (some v, none) =>
    match v.uuid with
    | none => some .panicked
    | some _ =>
      match modify with
      | (_, some e) => some (.ret (some e))
      | (none, none) => some (.ret (some (.msg "unexpected response from volume modify")))
      | (some acc, none) => PollJobStatus jobGet finalFetch sleeps acc.payload

/-- `QosPolicyGroup` as the operations read it: a kind tag and a name. -/
structure QosPolicyGroup where
  kind : ℕ
  name : String
deriving DecidableEq, Repr

/-- Modelled from the spec: `InvalidQosPolicyGroupKind` is declared in the
repository outside the embedded sources; only (in)equality with it matters
here. -/
def InvalidQosPolicyGroupKind : ℕ := 0

/-- Embedding of `RestClient.setVolumeQosPolicyGroupNameByNameAndStyle`.
Like `renameVolumeByNameAndStyle`, the source duplicates the
`volume == nil` check, so a nil UUID panics at `uuid := *volume.UUID`
(which the source runs before validating the QoS policy group). -/
def setVolumeQosPolicyGroupNameByNameAndStyle (lookup : Option Volume × Option Err)
    (qosPolicyGroup : QosPolicyGroup) (modify : AcceptedRet) (jobGet : ℕ → JobGetRet)
    (finalFetch : JobGetRet) (sleeps : ℕ → ℕ) : Option (GoResult (Option Err)) :=
  match lookup with
  | (_, some e) => some (.ret (some e))
  | (none, none) => some (.ret (some (.msg "could not find volume with name")))
  | (some v, none) =>
    match v.uuid with
    | none => some .panicked
    | some _ =>
      if qosPolicyGroup.kind ≠ InvalidQosPolicyGroupKind then
        if qosPolicyGroup.name ≠ "" then
          match modify with
          | (_, some e) => some (.ret (some e))
          | (none, none) =>
            some (.ret (some (.msg "unexpected response from volume modify")))
          | (some acc, none) => PollJobStatus jobGet finalFetch sleeps acc.payload
        else some (.ret (some (.msg "missing QoS policy group name")))
      else some (.ret (some (.msg "invalid QoS policy group")))

/-- Embedding of `RestClient.mountVolumeByNameAndStyle`: after the lookup
and UUID guards, a volume already mounted at the requested junction path
returns nil before the `VolumeModify` call. -/
def mountVolumeByNameAndStyle (junctionPath : String)
    (lookup : Option Volume × Option Err) (modify : AcceptedRet)
    (jobGet : ℕ → JobGetRet) (finalFetch : JobGetRet) (sleeps : ℕ → ℕ) :
    Option (GoResult (Option Err)) :=
  match lookup with
  | (_, some e) => some (.ret (some e))
  | (none, none) => some (.ret (some (.msg "could not find volume with name")))
  | (some v, none) =>
    match v.uuid with
    | none => some (.ret (some (.msg "could not find volume uuid with name")))
    | some _ =>
      if (match v.nas with
          | some nas => nas.path == some junctionPath
          | none => false) then some (.ret none)
      else
        match modify with
        | (_, some e) => some (.ret (some e))
        | (none, none) =>
          some (.ret (some (.msg "unexpected response from volume modify")))
        | (some acc, none) => PollJobStatus jobGet finalFetch sleeps acc.payload

/-- Embedding of `RestClient.unmountVolumeByNameAndStyle` (whose lookup is
`getVolumeInAnyStateByNameAndStyle`): a missing volume or UUID only warns
and returns the nil error in hand, and a volume whose NAS path is already
the empty string returns nil before the `VolumeModify` call. -/
def unmountVolumeByNameAndStyle (lookup : Option Volume × Option Err)
    (modify : AcceptedRet) (jobGet : ℕ → JobGetRet) (finalFetch : JobGetRet)
    (sleeps : ℕ → ℕ) : Option (GoResult (Option Err)) :=
  match lookup with
  | (_, some e) => some (.ret (some e))
  | (none, none) => some (.ret none)
  | (some v, none) =>
    match v.uuid with
    | none => some (.ret none)
    | some _ =>
      if (match v.nas with
          | some nas => nas.path == some ""
          | none => false) then some (.ret none)
      else
        match modify with
        | (_, some e) => some (.ret (some e))
        | (none, none) =>
          some (.ret (some (.msg "unexpected response from volume modify")))
        | (some acc, none) => PollJobStatus jobGet finalFetch sleeps acc.payload

/-- Embedding of `RestClient.createVolumeByStyle` from the `VolumeCreate`
call on (`createRes` its outcome): a nil response is an error, the returned
job is polled, a poll error is returned at once, and then the style selects
the existence wait — `waitForFlexgroup` for the flexgroup style, otherwise
`waitForVolume` — whose results are `waitFg` and `waitVol`. -/
def createVolumeByStyle (style : String) (createRes : AcceptedRet)
    (jobGet : ℕ → JobGetRet) (finalFetch : JobGetRet) (sleeps : ℕ → ℕ)
    (waitVol waitFg : Option Err) : Option (GoResult (Option Err)) :=
  match createRes with
  | (_, some e) => some (.ret (some e))
  | (none, none) => some (.ret (some (.msg "unexpected response from volume create")))
  | (some acc, none) =>
    match PollJobStatus jobGet finalFetch sleeps acc.payload with
    | none => none
    | some .panicked => some .panicked
    | some (.ret (some e)) => some (.ret (some e))
    | some (.ret none) =>
      if style = VolumeStyleFlexgroup then some (.ret waitFg) else some (.ret waitVol)

/-- C1: `IsJobFinished`, given a job-link payload, fetches the job's state and
returns true exactly when that state is a terminal state (success or
failure); it returns false for the non-terminal states queued, running and
paused, and returns an error (with false) for a nil payload, a nil job or
UUID, a nil fetched state, a fetch error, or any other state value. -/
theorem isJobFinished_terminal_state_spec :
    (∀ r : JobGetRet, IsJobFinished r none = .ret (false, some (.msg "payload is nil"))) ∧
    (∀ r : JobGetRet, IsJobFinished r (some ⟨none⟩) =
      .ret (false, some (.msg "payload's Job is nil"))) ∧
    (∀ r : JobGetRet, IsJobFinished r (some ⟨some ⟨none⟩⟩) =
      .ret (false, some (.msg "payload's Job uuid is nil"))) ∧
    (∀ u e (ro : Option JobGetOK), IsJobFinished (ro, some e) (validJobPayload u) =
      .ret (false, some e)) ∧
    (∀ u (okRes : JobGetOK) (j : Job), okRes.payload = some j → j.state = none →
      IsJobFinished (some okRes, none) (validJobPayload u) =
        .ret (false, some (.msg "unexpected nil job state "))) ∧
    (∀ u (okRes : JobGetOK) (j : Job) (s : String), okRes.payload = some j →
      j.state = some s →
      (IsJobFinished (some okRes, none) (validJobPayload u) = .ret (true, none) ↔
        (s = JobStateSuccess ∨ s = JobStateFailure))) ∧
    (∀ u (okRes : JobGetOK) (j : Job) (s : String), okRes.payload = some j →
      j.state = some s → (s = JobStateQueued ∨ s = JobStateRunning ∨ s = JobStatePaused) →
      IsJobFinished (some okRes, none) (validJobPayload u) = .ret (false, none)) ∧
    (∀ u (okRes : JobGetOK) (j : Job) (s : String), okRes.payload = some j →
      j.state = some s →
      s ≠ JobStateSuccess → s ≠ JobStateFailure → s ≠ JobStateQueued →
      s ≠ JobStateRunning → s ≠ JobStatePaused →
      IsJobFinished (some okRes, none) (validJobPayload u) =
        .ret (false, some (.msg ("unexpected job state " ++ s)))) := by
  refine ⟨fun r => rfl, fun r => rfl, fun r => rfl, fun u e ro => by cases ro <;> rfl, ?_, ?_, ?_, ?_⟩
  · intro u okRes j hp hs
    simp [IsJobFinished, validJobPayload, hp, hs]
  · intro u okRes j s hp hs
    simp only [IsJobFinished, validJobPayload, hp, hs]
    constructor
    · intro h
      by_cases h1 : s = JobStateSuccess
      · exact Or.inl h1
      by_cases h2 : s = JobStateFailure
      · exact Or.inr h2
      exfalso
      simp only [h1, if_false, h2] at h
      by_cases h3 : s = JobStatePaused <;> by_cases h4 : s = JobStateRunning <;>
        by_cases h5 : s = JobStateQueued <;> simp [h3, h4, h5] at h
    · rintro (h1 | h1) <;> simp [h1, JobStateSuccess, JobStateFailure]
  · intro u okRes j s hp hs hin
    have h1 : s ≠ JobStateSuccess := by
      rcases hin with h | h | h <;> subst h <;> decide
    have h2 : s ≠ JobStateFailure := by
      rcases hin with h | h | h <;> subst h <;> decide
    simp only [IsJobFinished, validJobPayload, hp, hs, h1, if_false, h2]
    rcases hin with h | h | h <;> subst h <;> simp [JobStatePaused, JobStateRunning, JobStateQueued]
  · intro u okRes j s hp hs h1 h2 h3 h4 h5
    simp [IsJobFinished, validJobPayload, hp, hs, h1, h2, h3, h4, h5]

/-- Witness for C1 at concrete inputs: a fetched "success" state is terminal. -/
theorem isJobFinished_terminal_state_spec_witness :
    IsJobFinished (some ⟨some ⟨some "success", none, none⟩⟩, none) (validJobPayload "u1") =
      .ret (true, none) :=
  (isJobFinished_terminal_state_spec.2.2.2.2.2.1 "u1" ⟨some ⟨some "success", none, none⟩⟩
    ⟨some "success", none, none⟩ "success" rfl rfl).mpr (Or.inl rfl)

/-- When every sleep is positive, `cap + 2` fuel always suffices: the loop
result is determined (not `none`). -/
theorem retryFuel_total (check : ℕ → Option Err) (sleeps : ℕ → ℕ) (cap : ℕ)
    (hpos : ∀ n, 0 < sleeps n) :
    ∀ fuel n elapsed, cap + 2 ≤ fuel + elapsed → 1 ≤ fuel →
      (retryFuel check sleeps cap fuel n elapsed).isSome := by
  intro fuel
  induction fuel with
  | zero => intro n elapsed _ h1; omega
  | succ f ih =>
    intro n elapsed hfe _
    rw [retryFuel]
    match hc : check n with
    | none => rfl
    | some e =>
      simp only
      by_cases hstop : cap < elapsed + sleeps n
      · rw [if_pos hstop]; rfl
      · rw [if_neg hstop]
        have hs := hpos n
        refine ih (n + 1) (elapsed + sleeps n) (by omega) (by omega)

/-- When the checked condition never becomes true, the loop's determined
result is an error, never success. -/
theorem retryFuel_err (check : ℕ → Option Err) (sleeps : ℕ → ℕ) (cap : ℕ)
    (hfail : ∀ n, check n ≠ none) :
    ∀ fuel n elapsed, retryFuel check sleeps cap fuel n elapsed ≠ some none := by
  intro fuel
  induction fuel with
  | zero => intro n elapsed; rw [retryFuel]; exact fun h => by cases h
  | succ f ih =>
    intro n elapsed
    rw [retryFuel]
    match hc : check n with
    | none => exact absurd hc (hfail n)
    | some e =>
      simp only
      by_cases hstop : cap < elapsed + sleeps n
      · rw [if_pos hstop]; exact fun h => by simp at h
      · rw [if_neg hstop]; exact ih (n + 1) (elapsed + sleeps n)

/-- `retryFuelGo` analogue of `retryFuel_total`. -/
theorem retryFuelGo_total (check : ℕ → GoResult (Option Err)) (sleeps : ℕ → ℕ) (cap : ℕ)
    (hpos : ∀ n, 0 < sleeps n) :
    ∀ fuel n elapsed, cap + 2 ≤ fuel + elapsed → 1 ≤ fuel →
      (retryFuelGo check sleeps cap fuel n elapsed).isSome := by
  intro fuel
  induction fuel with
  | zero => intro n elapsed _ h1; omega
  | succ f ih =>
    intro n elapsed hfe _
    rw [retryFuelGo]
    match hc : check n with
    | .panicked => rfl
    | .ret none => rfl
    | .ret (some e) =>
      simp only
      by_cases hstop : cap < elapsed + sleeps n
      · rw [if_pos hstop]; rfl
      · rw [if_neg hstop]
        have hs := hpos n
        refine ih (n + 1) (elapsed + sleeps n) (by omega) (by omega)

/-- `retryFuelGo` analogue of `retryFuel_err`: when the check never
succeeds and never panics, the determined result is an error. -/
theorem retryFuelGo_err (check : ℕ → GoResult (Option Err)) (sleeps : ℕ → ℕ) (cap : ℕ)
    (hfail : ∀ n, check n ≠ .ret none) (hnp : ∀ n, check n ≠ .panicked) :
    ∀ fuel n elapsed, retryFuelGo check sleeps cap fuel n elapsed ≠ some (.ret none) ∧
      retryFuelGo check sleeps cap fuel n elapsed ≠ some .panicked := by
  intro fuel
  induction fuel with
  | zero =>
    intro n elapsed
    rw [retryFuelGo]
    exact ⟨(fun h => by cases h), fun h => by cases h⟩
  | succ f ih =>
    intro n elapsed
    rw [retryFuelGo]
    match hc : check n with
    | .panicked => exact absurd hc (hnp n)
    | .ret none => exact absurd hc (hfail n)
    | .ret (some e) =>
      simp only
      by_cases hstop : cap < elapsed + sleeps n
      · rw [if_pos hstop]
        exact ⟨(fun h => by simp at h), fun h => by simp at h⟩
      · rw [if_neg hstop]; exact ih (n + 1) (elapsed + sleeps n)

theorem one_le_two_pow_q (n : ℕ) : (1 : ℚ) ≤ 2 ^ n := by
  induction n with
  | zero => norm_num
  | succ k ih => rw [pow_succ]; nlinarith

theorem nominalInterval_ge (b : ExponentialBackOff) (hb : RestBackoffFields b) (n : ℕ) :
    (1000 : ℚ) ≤ nominalInterval b n := by
  obtain ⟨hb1, hb2, hb3, hb4⟩ := hb
  rw [nominalInterval, hb1, hb2, hb4]
  refine le_min ?_ (by norm_num)
  have := one_le_two_pow_q n
  push_cast
  nlinarith

theorem nominalInterval_nonneg (b : ExponentialBackOff) (hb : RestBackoffFields b) (n : ℕ) :
    (0 : ℚ) ≤ nominalInterval b n := by
  linarith [nominalInterval_ge b hb n]

/-- The zero-deviation sleeps are inside the randomization window. -/
theorem nominalSleeps_valid (b : ExponentialBackOff) (hb : RestBackoffFields b) :
    ValidSleeps b nominalSleeps := by
  intro n
  obtain ⟨hb1, hb2, hb3, hb4⟩ := hb
  have hcast : (nominalSleeps n : ℚ) = nominalInterval b n := by
    rw [nominalSleeps, nominalInterval, hb1, hb2, hb4]
    push_cast [Nat.cast_min]
    norm_num
  have h0 : (0 : ℚ) ≤ nominalInterval b n := nominalInterval_nonneg b ⟨hb1, hb2, hb3, hb4⟩ n
  rw [hcast, hb3]
  constructor <;> nlinarith

/-- Any sleep sequence in the randomization window is everywhere positive
(at least 0.9s), which is what makes every retry loop advance time. -/
theorem validSleeps_pos (b : ExponentialBackOff) (sleeps : ℕ → ℕ)
    (hb : RestBackoffFields b) (hv : ValidSleeps b sleeps) : ∀ n, 0 < sleeps n := by
  intro n
  have h := (hv n).1
  have hnom := nominalInterval_ge b hb n
  rw [hb.2.2.1] at h
  have h9 : (900 : ℚ) ≤ (sleeps n : ℚ) := by nlinarith
  have : (0 : ℚ) < (sleeps n : ℚ) := by linarith
  exact_mod_cast this

/-- C3: every polling loop in the RestClient (job-status polling, waiting
for a created volume or FlexGroup to appear, waiting for a created LUN to
appear) uses exponential backoff with initial interval 1 second, multiplier
2, randomization factor 0.1, and a maximum elapsed time cap between 1 and 2
minutes depending on the operation; and when the polled condition never
becomes true, each loop terminates with an error once the cap elapses. -/
theorem polling_loops_backoff_spec :
    (RestBackoffFields jobStatusBackoff ∧ jobStatusBackoff.maxElapsedTime = 120000) ∧
    (RestBackoffFields volumeStatusBackoff ∧ volumeStatusBackoff.maxElapsedTime = 60000) ∧
    (RestBackoffFields flexgroupStatusBackoff ∧ flexgroupStatusBackoff.maxElapsedTime = 60000) ∧
    (RestBackoffFields lunCreateStatusBackoff ∧ lunCreateStatusBackoff.maxElapsedTime = 120000) ∧
    (∀ b ∈ [jobStatusBackoff, volumeStatusBackoff, flexgroupStatusBackoff,
        lunCreateStatusBackoff], 60000 ≤ b.maxElapsedTime ∧ b.maxElapsedTime ≤ 120000) ∧
    (∀ (jobGet : ℕ → JobGetRet) (payload : Option JobLinkResponse) (uuid : String)
        (sleeps : ℕ → ℕ), ValidSleeps jobStatusBackoff sleeps →
      (∀ n, IsJobFinished (jobGet n) payload = .ret (false, none)) →
      ∃ e, retryNotifyGo (jobCheckStatus jobGet payload uuid) sleeps
        jobStatusBackoff.maxElapsedTime = some (.ret (some e))) ∧
    (∀ (volumeExists : ℕ → Bool × Option Err) (sleeps : ℕ → ℕ),
      ValidSleeps volumeStatusBackoff sleeps → (∀ n, (volumeExists n).1 = false) →
      ∃ e, waitForVolume volumeExists sleeps = some (some e)) ∧
    (∀ (flexgroupExists : ℕ → Bool × Option Err) (sleeps : ℕ → ℕ),
      ValidSleeps flexgroupStatusBackoff sleeps → (∀ n, (flexgroupExists n).1 = false) →
      ∃ e, waitForFlexgroup flexgroupExists sleeps = some (some e)) ∧
    (∀ (lunGet : ℕ → Option Lun × Option Err) (sleeps : ℕ → ℕ),
      ValidSleeps lunCreateStatusBackoff sleeps → (∀ n, (lunGet n).1 = none) →
      ∃ e, pollLunCreate lunGet sleeps = some (some e)) := by
  refine ⟨⟨⟨rfl, rfl, rfl, rfl⟩, rfl⟩, ⟨⟨rfl, rfl, rfl, rfl⟩, rfl⟩,
    ⟨⟨rfl, rfl, rfl, rfl⟩, rfl⟩, ⟨⟨rfl, rfl, rfl, rfl⟩, rfl⟩, ?_, ?_, ?_, ?_, ?_⟩
  · intro b hb
    fin_cases hb <;> exact ⟨(by decide), by decide⟩
  · intro jobGet payload uuid sleeps hv hrun
    have hpos := validSleeps_pos jobStatusBackoff sleeps ⟨rfl, rfl, rfl, rfl⟩ hv
    have hfail : ∀ n, jobCheckStatus jobGet payload uuid n ≠ .ret none := by
      intro n h
      rw [jobCheckStatus, hrun n] at h
      exact Option.noConfusion (GoResult.ret.inj h)
    have hnp : ∀ n, jobCheckStatus jobGet payload uuid n ≠ .panicked := by
      intro n h
      rw [jobCheckStatus, hrun n] at h
      exact GoResult.noConfusion h
    have hsome := retryFuelGo_total (jobCheckStatus jobGet payload uuid) sleeps
      jobStatusBackoff.maxElapsedTime hpos (jobStatusBackoff.maxElapsedTime + 2) 0 0
      (by omega) (by omega)
    have herr := retryFuelGo_err (jobCheckStatus jobGet payload uuid) sleeps
      jobStatusBackoff.maxElapsedTime hfail hnp (jobStatusBackoff.maxElapsedTime + 2) 0 0
    rw [retryNotifyGo]
    match hres : retryFuelGo (jobCheckStatus jobGet payload uuid) sleeps
        jobStatusBackoff.maxElapsedTime (jobStatusBackoff.maxElapsedTime + 2) 0 0 with
    | none => rw [hres] at hsome; exact absurd hsome (by simp)
    | some .panicked => exact absurd hres herr.2
    | some (.ret none) => exact absurd hres herr.1
    | some (.ret (some e)) => exact ⟨e, rfl⟩
  · intro volumeExists sleeps hv hno
    have hpos := validSleeps_pos volumeStatusBackoff sleeps ⟨rfl, rfl, rfl, rfl⟩ hv
    have hfail : ∀ n, (if (volumeExists n).1 = false then
        some (Err.msg "volume does not exit, will continue checking")
        else (volumeExists n).2) ≠ none := by
      intro n
      rw [if_pos (hno n)]
      exact Option.noConfusion
    have hsome := retryFuel_total (fun n => if (volumeExists n).1 = false then
        some (Err.msg "volume does not exit, will continue checking")
        else (volumeExists n).2) sleeps volumeStatusBackoff.maxElapsedTime hpos
      (volumeStatusBackoff.maxElapsedTime + 2) 0 0 (by omega) (by omega)
    have herr := retryFuel_err (fun n => if (volumeExists n).1 = false then
        some (Err.msg "volume does not exit, will continue checking")
        else (volumeExists n).2) sleeps volumeStatusBackoff.maxElapsedTime hfail
      (volumeStatusBackoff.maxElapsedTime + 2) 0 0
    rw [waitForVolume, retryNotify]
    match hres : retryFuel (fun n => if (volumeExists n).1 = false then
        some (Err.msg "volume does not exit, will continue checking")
        else (volumeExists n).2) sleeps volumeStatusBackoff.maxElapsedTime
        (volumeStatusBackoff.maxElapsedTime + 2) 0 0 with
    | none => rw [hres] at hsome; exact absurd hsome (by simp)
    | some none => exact absurd hres herr
    | some (some e) => exact ⟨e, rfl⟩
  · intro flexgroupExists sleeps hv hno
    have hpos := validSleeps_pos flexgroupStatusBackoff sleeps ⟨rfl, rfl, rfl, rfl⟩ hv
    have hfail : ∀ n, (if (flexgroupExists n).1 = false then
        some (Err.msg "FlexGroup does not exit, will continue checking")
        else (flexgroupExists n).2) ≠ none := by
      intro n
      rw [if_pos (hno n)]
      exact Option.noConfusion
    have hsome := retryFuel_total (fun n => if (flexgroupExists n).1 = false then
        some (Err.msg "FlexGroup does not exit, will continue checking")
        else (flexgroupExists n).2) sleeps flexgroupStatusBackoff.maxElapsedTime hpos
      (flexgroupStatusBackoff.maxElapsedTime + 2) 0 0 (by omega) (by omega)
    have herr := retryFuel_err (fun n => if (flexgroupExists n).1 = false then
        some (Err.msg "FlexGroup does not exit, will continue checking")
        else (flexgroupExists n).2) sleeps flexgroupStatusBackoff.maxElapsedTime hfail
      (flexgroupStatusBackoff.maxElapsedTime + 2) 0 0
    rw [waitForFlexgroup, retryNotify]
    match hres : retryFuel (fun n => if (flexgroupExists n).1 = false then
        some (Err.msg "FlexGroup does not exit, will continue checking")
        else (flexgroupExists n).2) sleeps flexgroupStatusBackoff.maxElapsedTime
        (flexgroupStatusBackoff.maxElapsedTime + 2) 0 0 with
    | none => rw [hres] at hsome; exact absurd hsome (by simp)
    | some none => exact absurd hres herr
    | some (some e) => exact ⟨e, rfl⟩
  · intro lunGet sleeps hv hno
    have hpos := validSleeps_pos lunCreateStatusBackoff sleeps ⟨rfl, rfl, rfl, rfl⟩ hv
    have hfail : ∀ n, (match lunGet n with
        | (_, some e) => some e
        | (none, none) => some (Err.msg "could not find LUN with name")
        | (some _, none) => none) ≠ none := by
      intro n
      have h1 := hno n
      revert h1
      rcases lunGet n with ⟨l, er⟩
      intro h1
      simp only at h1
      subst h1
      cases er <;> exact Option.noConfusion
    have hsome := retryFuel_total (fun n => match lunGet n with
        | (_, some e) => some e
        | (none, none) => some (Err.msg "could not find LUN with name")
        | (some _, none) => none) sleeps lunCreateStatusBackoff.maxElapsedTime hpos
      (lunCreateStatusBackoff.maxElapsedTime + 2) 0 0 (by omega) (by omega)
    have herr := retryFuel_err (fun n => match lunGet n with
        | (_, some e) => some e
        | (none, none) => some (Err.msg "could not find LUN with name")
        | (some _, none) => none) sleeps lunCreateStatusBackoff.maxElapsedTime hfail
      (lunCreateStatusBackoff.maxElapsedTime + 2) 0 0
    rw [pollLunCreate, retryNotify]
    match hres : retryFuel (fun n => match lunGet n with
        | (_, some e) => some e
        | (none, none) => some (Err.msg "could not find LUN with name")
        | (some _, none) => none) sleeps lunCreateStatusBackoff.maxElapsedTime
        (lunCreateStatusBackoff.maxElapsedTime + 2) 0 0 with
    | none => rw [hres] at hsome; exact absurd hsome (by simp)
    | some none => exact absurd hres herr
    | some (some e) => exact ⟨e, rfl⟩

/-- Witness for C3 at a concrete input: a volume that never appears makes
`waitForVolume` (zero-deviation sleeps) finish with an error. -/
theorem polling_loops_backoff_spec_witness :
    ∃ e, waitForVolume (fun _ => (false, none)) nominalSleeps = some (some e) :=
  polling_loops_backoff_spec.2.2.2.2.2.2.1 (fun _ => (false, none)) nominalSleeps
    (nominalSleeps_valid volumeStatusBackoff ⟨rfl, rfl, rfl, rfl⟩) (fun _ => rfl)

/-- Helper: the post-loop tail returns a nil error exactly when the final
fetch delivered a job in the "success" state. -/
theorem pollJobFinal_ret_none_iff (uuid : String) (finalFetch : JobGetRet) :
    pollJobFinal uuid finalFetch = .ret none ↔
      ∃ j : Job, finalFetch = (some ⟨some j⟩, none) ∧ j.state = some JobStateSuccess := by
  obtain ⟨ro, er⟩ := finalFetch
  cases er with
  | some e => simp [pollJobFinal]
  | none =>
    cases ro with
    | none => simp [pollJobFinal]
    | some okRes =>
      obtain ⟨jp⟩ := okRes
      cases jp with
      | none => simp [pollJobFinal]
      | some j =>
        cases hs : j.state with
        | none => simp [pollJobFinal, hs]
        | some s =>
          by_cases hsucc : s = JobStateSuccess
          · subst hsucc
            simp [pollJobFinal, hs]
          · by_cases hfl : s = JobStateFailure
            · simp [pollJobFinal, hs, hsucc, hfl]
            · simp [pollJobFinal, hs, hsucc, hfl]

/-- Helper: `PollJobStatus` returns a nil error exactly on the success
path: valid payload, converged loop, and a final fetch carrying the
"success" state. -/
theorem pollJobStatus_ret_none_iff (jobGet : ℕ → JobGetRet) (finalFetch : JobGetRet)
    (sleeps : ℕ → ℕ) (payload : Option JobLinkResponse) :
    PollJobStatus jobGet finalFetch sleeps payload = some (.ret none) ↔
      (∃ u j, payload = validJobPayload u ∧
        PollLoopConverged jobGet payload u sleeps ∧
        finalFetch = (some ⟨some j⟩, none) ∧ j.state = some JobStateSuccess) := by
  match payload with
  | none =>
    simp [PollJobStatus, validJobPayload]
  | some ⟨none⟩ =>
    simp [PollJobStatus, validJobPayload]
  | some ⟨some ⟨none⟩⟩ =>
    simp [PollJobStatus, validJobPayload]
  | some ⟨some ⟨some u⟩⟩ =>
    rw [PollJobStatus]
    simp only
    constructor
    · intro h
      match hloop : retryNotifyGo (jobCheckStatus jobGet (some ⟨some ⟨some u⟩⟩) u) sleeps
          jobStatusBackoff.maxElapsedTime with
      | none => rw [hloop] at h; exact absurd h (by simp)
      | some .panicked => rw [hloop] at h; exact absurd h (by simp)
      | some (.ret (some e)) => rw [hloop] at h; exact absurd h (by simp)
      | some (.ret none) =>
        rw [hloop] at h
        simp only [Option.some.injEq] at h
        obtain ⟨j, hj, hjs⟩ := (pollJobFinal_ret_none_iff u finalFetch).mp h
        exact ⟨u, j, rfl, hloop, hj, hjs⟩
    · rintro ⟨u2, j, hpl, hloop, hf, hjs⟩
      rw [validJobPayload] at hpl
      have hu : u = u2 := by
        simpa using hpl
      subst hu
      rw [PollLoopConverged] at hloop
      rw [hloop]
      exact congrArg some ((pollJobFinal_ret_none_iff u finalFetch).mpr ⟨j, hf, hjs⟩)

/-- With a valid payload and a converged polling loop, `PollJobStatus` is
exactly the post-loop tail applied to the final fetch. -/
theorem pollJobStatus_converged (jobGet : ℕ → JobGetRet) (finalFetch : JobGetRet)
    (sleeps : ℕ → ℕ) (u : String)
    (h : PollLoopConverged jobGet (validJobPayload u) u sleeps) :
    PollJobStatus jobGet finalFetch sleeps (validJobPayload u) =
      some (pollJobFinal u finalFetch) := by
  have h2 := h
  rw [PollLoopConverged] at h2
  calc PollJobStatus jobGet finalFetch sleeps (validJobPayload u)
      = (match retryNotifyGo (jobCheckStatus jobGet (validJobPayload u) u) sleeps
            jobStatusBackoff.maxElapsedTime with
        | none => none
        | some .panicked => some .panicked
        | some (.ret (some e)) => some (.ret (some e))
        | some (.ret none) => some (pollJobFinal u finalFetch)) := rfl
    _ = some (pollJobFinal u finalFetch) := by rw [h2]

/-- C2: `PollJobStatus`, after its polling loop ends, re-fetches the job and
returns nil exactly when the final job state is success; when the final
state is failure it returns an error built from the job payload, and it
returns an error for a nil job, a nil job UUID, a fetch failure, a nil
fetched result or state, or any state other than success or failure. -/
theorem pollJobStatus_final_state_spec :
    (∀ (jobGet : ℕ → JobGetRet) (finalFetch : JobGetRet) (sleeps : ℕ → ℕ),
      PollJobStatus jobGet finalFetch sleeps (some ⟨none⟩) =
        some (.ret (some (.msg "missing job result")))) ∧
    (∀ (jobGet : ℕ → JobGetRet) (finalFetch : JobGetRet) (sleeps : ℕ → ℕ),
      PollJobStatus jobGet finalFetch sleeps (some ⟨some ⟨none⟩⟩) =
        some (.ret (some (.msg "missing job uuid for result")))) ∧
    (∀ (jobGet : ℕ → JobGetRet) (finalFetch : JobGetRet) (sleeps : ℕ → ℕ)
        (payload : Option JobLinkResponse),
      PollJobStatus jobGet finalFetch sleeps payload = some (.ret none) ↔
        ∃ u j, payload = validJobPayload u ∧ PollLoopConverged jobGet payload u sleeps ∧
          finalFetch = (some ⟨some j⟩, none) ∧ j.state = some JobStateSuccess) ∧
    (∀ (jobGet : ℕ → JobGetRet) (finalFetch : JobGetRet) (sleeps : ℕ → ℕ) (u : String),
      PollLoopConverged jobGet (validJobPayload u) u sleeps →
      (∀ j : Job, finalFetch = (some ⟨some j⟩, none) → j.state = some JobStateFailure →
        PollJobStatus jobGet finalFetch sleeps (validJobPayload u) =
          some (.ret (some (.restError j.state j.message j.code)))) ∧
      (∀ (ro : Option JobGetOK) (e : Err), finalFetch = (ro, some e) →
        PollJobStatus jobGet finalFetch sleeps (validJobPayload u) =
          some (.ret (some e))) ∧
      (finalFetch = (none, none) →
        PollJobStatus jobGet finalFetch sleeps (validJobPayload u) =
          some (.ret (some (.msg ("missing job result for job UUID " ++ u))))) ∧
      (∀ j : Job, finalFetch = (some ⟨some j⟩, none) → j.state = none →
        PollJobStatus jobGet finalFetch sleeps (validJobPayload u) =
          some (.ret (some (.msg "unexpected nil job state ")))) ∧
      (∀ (j : Job) (s : String), finalFetch = (some ⟨some j⟩, none) → j.state = some s →
        s ≠ JobStateSuccess → s ≠ JobStateFailure →
        ∃ e, PollJobStatus jobGet finalFetch sleeps (validJobPayload u) =
          some (.ret (some e)))) := by
  refine ⟨(fun jobGet finalFetch sleeps => rfl), (fun jobGet finalFetch sleeps => rfl),
    (fun jobGet finalFetch sleeps payload =>
      pollJobStatus_ret_none_iff jobGet finalFetch sleeps payload), ?_⟩
  intro jobGet finalFetch sleeps u hconv
  have hbase := pollJobStatus_converged jobGet finalFetch sleeps u hconv
  refine ⟨?_, ?_, ?_, ?_, ?_⟩
  · intro j hf hs
    subst hf
    rw [hbase]
    simp [pollJobFinal, hs, JobStateSuccess, JobStateFailure]
  · intro ro e hf
    subst hf
    rw [hbase]
    cases ro <;> rfl
  · intro hf
    subst hf
    rw [hbase]
    rfl
  · intro j hf hs
    subst hf
    rw [hbase]
    simp [pollJobFinal, hs]
  · intro j s hf hs h1 h2
    subst hf
    rw [hbase]
    exact ⟨.msg ("unexpected job state " ++ s), by simp [pollJobFinal, hs, h1, h2]⟩

/-- Witness for C2 at concrete inputs: a job found finished at once whose
final fetched state is "failure" yields the structured rest error. -/
theorem pollJobStatus_final_state_spec_witness :
    PollJobStatus (fun _ => (some ⟨some ⟨some "success", none, none⟩⟩, none))
      (some ⟨some ⟨some "failure", some "boom", some 4⟩⟩, none) (fun _ => 1000)
      (validJobPayload "u1") =
      some (.ret (some (.restError (some "failure") (some "boom") (some 4)))) :=
  (pollJobStatus_final_state_spec.2.2.2
    (fun _ => (some ⟨some ⟨some "success", none, none⟩⟩, none))
    (some ⟨some ⟨some "failure", some "boom", some 4⟩⟩, none) (fun _ => 1000) "u1"
    (by unfold PollLoopConverged; decide)).1 ⟨some "failure", some "boom", some 4⟩ rfl rfl

/-- `HasNextLink` equals the three-step reflected-href characterization on
every input. -/
theorem hasNextLink_eq_reflected (v : GoVal) : HasNextLink v = reflectedNextHref v := by
  by_cases hv : v = GoVal.nilIface
  · subst hv; rfl
  · have h1 : hasNextLinkCore v = (match fieldByName v "Links" with
      | .error () => .error ()
      | .ok none => .ok false
      | .ok (some links) =>
        match fieldByName links "Next" with
        | .error () => .error ()
        | .ok none => .ok false
        | .ok (some next) =>
          match fieldByName next "Href" with
          | .error () => .error ()
          | .ok none => .ok false
          | .ok (some href) => .ok (goString href ≠ "")) := by
      cases v with
      | nilIface => exact absurd rfl hv
      | ptr p => rfl
      | strukt fs => rfl
      | str s => rfl
    rw [HasNextLink, h1, reflectedNextHref, hrefOfWalk]
    rcases hl : fieldByName v "Links" with u1 | ol
    · rfl
    · rcases ol with _ | links
      · rfl
      · rcases hn : fieldByName links "Next" with u2 | o2
        · simp [hn]
        · rcases o2 with _ | next
          · simp [hn]
          · rcases hh : fieldByName next "Href" with u3 | oh
            · simp [hn, hh]
            · rcases oh with _ | href
              · simp [hn, hh]
              · simp [hn, hh]

/-- C7 (counterexample): the claim's "returns true exactly when the input
has a Links.Next.Href chain whose href string is non-empty" fails on the
code: a struct whose `Href` field is not a string has no href string at
all, yet `reflect.Value.String()` yields the non-empty placeholder
"<T Value>" and `HasNextLink` returns true. -/
theorem hasNextLink_nonstring_href_counterexample :
    HasNextLink (.strukt [("Links", .strukt [("Next",
        .strukt [("Href", .strukt [])])])]) = true ∧
      specHasNextHref (.strukt [("Links", .strukt [("Next",
        .strukt [("Href", .strukt [])])])]) = false := by
  constructor <;> rfl

/-- C7 (amended): `HasNextLink` is total and never panics (every reflection
panic is recovered to false); it returns false for nil, for a nil pointer,
for a value without a `Links` field, for a `Links` without a `Next` field,
and for a `Next` without an `Href` field; it returns true exactly when the
`Links.Next.Href` walk succeeds and the `Href` field's reflected string
value is non-empty — which, whenever the `Href` field is a string (as in
every generated payload type it is applied to), is exactly when the href
string is non-empty. -/
theorem hasNextLink_total_spec :
    (∀ v, HasNextLink v = reflectedNextHref v) ∧
    (HasNextLink .nilIface = false) ∧
    (HasNextLink (.ptr none) = false) ∧
    (∀ fields, lookupField fields "Links" = none → HasNextLink (.strukt fields) = false) ∧
    (∀ v links, fieldByName v "Links" = .ok (some links) →
      fieldByName links "Next" = .ok none → HasNextLink v = false) ∧
    (∀ v links next, fieldByName v "Links" = .ok (some links) →
      fieldByName links "Next" = .ok (some next) → fieldByName next "Href" = .ok none →
      HasNextLink v = false) ∧
    (∀ v links next s, fieldByName v "Links" = .ok (some links) →
      fieldByName links "Next" = .ok (some next) →
      fieldByName next "Href" = .ok (some (.str s)) →
      (HasNextLink v = true ↔ s ≠ "")) ∧
    (∀ v, specHasNextHref v = true → HasNextLink v = true) := by
  refine ⟨hasNextLink_eq_reflected, rfl, rfl, ?_, ?_, ?_, ?_, ?_⟩
  · intro fields h
    rw [hasNextLink_eq_reflected, reflectedNextHref, hrefOfWalk]
    have hf : fieldByName (.strukt fields) "Links" = .ok none := by
      rw [fieldByName, h]
    rw [hf]
  · intro v links hl hn
    rw [hasNextLink_eq_reflected, reflectedNextHref, hrefOfWalk, hl]
    simp [hn]
  · intro v links next hl hn hh
    rw [hasNextLink_eq_reflected, reflectedNextHref, hrefOfWalk, hl]
    simp [hn, hh]
  · intro v links next s hl hn hh
    rw [hasNextLink_eq_reflected, reflectedNextHref, hrefOfWalk, hl]
    simp [hn, hh, goString]
  · intro v h
    rw [hasNextLink_eq_reflected, reflectedNextHref]
    rw [specHasNextHref] at h
    match hw : hrefOfWalk v with
    | none => rw [hw] at h; exact absurd h (by simp)
    | some .nilIface => rw [hw] at h; exact absurd h (by simp)
    | some (.ptr p) => rw [hw] at h; exact absurd h (by simp)
    | some (.strukt fs) => rw [hw] at h; exact absurd h (by simp)
    | some (.str s2) =>
      rw [hw] at h
      simpa [goString] using h

/-- Witness for the amended C7 at concrete inputs: a chain with the string
href "/api/next" yields true. -/
theorem hasNextLink_total_spec_witness :
    HasNextLink samplePageVal = true :=
  (hasNextLink_total_spec.2.2.2.2.2.2.1 samplePageVal sampleLinksVal sampleNextVal
    "/api/next" rfl rfl rfl).mpr (by decide)

/-- Go append reads through nil: the elements of `goAppend a b` are those
of `a` then those of `b` (a nil slice holding no elements). -/
theorem goAppend_getD {α : Type} (a b : Option (List α)) :
    (goAppend a b).getD [] = a.getD [] ++ b.getD [] := by
  cases b with
  | none => simp [goAppend]
  | some bs => cases bs with
    | nil => simp [goAppend]
    | cons x xs => simp [goAppend]

/-- Folding `goAppend` over pages concatenates their record lists. -/
theorem foldl_goAppend_getD {α : Type} (ms : List (Page α)) :
    ∀ r : Option (List α),
      (ms.foldl (fun a q => goAppend a q.records) r).getD [] =
        r.getD [] ++ ms.flatMap fun q => q.records.getD [] := by
  induction ms with
  | nil => intro r; simp
  | cons q qs ih =>
    intro r
    rw [List.foldl_cons, ih (goAppend r q.records), goAppend_getD]
    simp [List.flatMap_cons, List.append_assoc]

/-- Merging one more page first is merging into the once-extended
accumulator: the single loop step agrees with `mergeResult`. -/
theorem mergeResult_cons {α : Type} (init p : Page α) (ps : List (Page α)) (k : Int)
    (hk : p.numRecords = some k) :
    mergeResult init (p :: ps) =
      mergeResult ⟨some (init.numRecords.getD 0 + k), goAppend init.records p.records,
        init.links⟩ ps := by
  cases ps with
  | nil => simp [mergeResult, hk]
  | cons q qs =>
    simp [mergeResult, hk]
    ring

/-- The pagination loop, fully characterized by the spec-side functions:
it returns `(nil, e)` when an error stops the scan, keeps running while
every page is good with a next link, and otherwise returns the merge of
the good pages up to the first one without a next link. -/
theorem paginateLoop_characterization {α : Type} (fetches : List (FetchRet α)) :
    ∀ init : Page α,
      paginateLoop fetches init =
        match specLoopError fetches with
        | some e => some (none, some e)
        | none =>
          if allGoodWithNext fetches then none
          else some (some (mergeResult init (specMergedPages fetches)), none) := by
  induction fetches with
  | nil => intro init; simp [paginateLoop, specLoopError, allGoodWithNext]
  | cons f rest ih =>
    intro init
    obtain ⟨ro, er⟩ := f
    cases er with
    | some e => simp [paginateLoop, specLoopError]
    | none =>
      cases ro with
      | none =>
        simp [paginateLoop, specLoopError, allGoodWithNext, goodPage, specMergedPages,
          mergeResult]
      | some okp =>
        cases hp : okp.payload with
        | none =>
          simp [paginateLoop, specLoopError, allGoodWithNext, goodPage, specMergedPages,
            mergeResult, hp]
        | some pnext =>
          cases hk : pnext.numRecords with
          | none =>
            simp [paginateLoop, specLoopError, allGoodWithNext, goodPage, specMergedPages,
              mergeResult, hp, hk]
          | some k =>
            by_cases hnx : pageHasNext pnext
            · rw [paginateLoop]
              simp only [hp, hk, hnx, if_true]
              rw [ih]
              have hspec : specLoopError ((some okp, (none : Option Err)) :: rest) =
                  specLoopError rest := by
                simp [specLoopError, goodPage, hp, hk, hnx]
              have hall : allGoodWithNext ((some okp, (none : Option Err)) :: rest) =
                  allGoodWithNext rest := by
                simp [allGoodWithNext, goodPage, hp, hk, hnx]
              have hmerged : specMergedPages ((some okp, (none : Option Err)) :: rest) =
                  pnext :: specMergedPages rest := by
                simp [specMergedPages, goodPage, hp, hk, hnx]
              rw [hspec, hall, hmerged,
                mergeResult_cons init pnext (specMergedPages rest) k hk]
            · rw [paginateLoop]
              simp only [hp, hk, hnx, if_false]
              have hspec : specLoopError ((some okp, (none : Option Err)) :: rest) =
                  none := by
                simp [specLoopError, goodPage, hp, hk, hnx]
              have hall : allGoodWithNext ((some okp, (none : Option Err)) :: rest) =
                  false := by
                simp [allGoodWithNext, goodPage, hp, hk, hnx]
              have hmerged : specMergedPages ((some okp, (none : Option Err)) :: rest) =
                  [pnext] := by
                simp [specMergedPages, goodPage, hp, hk, hnx]
              rw [hspec, hall, hmerged]
              simp [mergeResult, hk]

/-- A fetch sequence that would keep the loop running forever never stops
it with an error. -/
theorem specLoopError_of_allGood {α : Type} (fetches : List (FetchRet α))
    (h : allGoodWithNext fetches = true) : specLoopError fetches = none := by
  induction fetches with
  | nil => rfl
  | cons f rest ih =>
    obtain ⟨ro, er⟩ := f
    rw [allGoodWithNext, List.all_cons] at h
    simp only [Bool.and_eq_true] at h
    have hrest2 : allGoodWithNext rest = true := by
      rw [allGoodWithNext]
      exact h.2
    have hhead := h.1
    cases er with
    | some e =>
      cases ro with
      | none => simp [goodPage] at hhead
      | some okp => simp [goodPage] at hhead
    | none =>
      cases ro with
      | none => simp [goodPage] at hhead
      | some okp =>
        cases hp : okp.payload with
        | none => simp [goodPage, hp] at hhead
        | some p =>
          cases hk : p.numRecords with
          | none => simp [goodPage, hp, hk] at hhead
          | some k =>
            have hg : goodPage ((some okp : Option (PageOK α)), (none : Option Err)) =
                some p := by
              simp [goodPage, hp, hk]
            rw [hg] at hhead
            simp only at hhead
            rw [specLoopError]
            simp [hg, hhead, ih hrest2]
            intro fst e heq
            simp at heq

/-- C4: for every paginated list result, the pagination helper follows the
next link repeatedly and returns a payload whose record list is the
concatenation, in fetch order, of the initial page's records and every
merged page's records, whose NumRecords is the sum of the merged pages'
NumRecords on top of the initial count; the loop stops exactly when a
fetched page carries no further next link (or a page arrives with a nil
result, payload or NumRecords); any fetch error is returned with a nil
payload and no partial merge. `getAllVolumePayloadRecords` and
`AggregateList` wrap this loop as in the source. -/
theorem pagination_merge_spec :
    (∀ (α : Type) (fetches : List (FetchRet α)) (init p : Page α),
      paginateLoop fetches init = some (some p, none) →
      specLoopError fetches = none ∧
      p = mergeResult init (specMergedPages fetches) ∧
      p.records.getD [] = init.records.getD [] ++
        ((specMergedPages fetches).flatMap fun q => q.records.getD []) ∧
      p.numRecords = (if (specMergedPages fetches).isEmpty then init.numRecords
        else some (init.numRecords.getD 0 +
          ((specMergedPages fetches).map fun q => q.numRecords.getD 0).sum))) ∧
    (∀ (α : Type) (fetches : List (FetchRet α)) (init : Page α)
        (r : Option (Page α)) (e : Err),
      paginateLoop fetches init = some (r, some e) →
      r = none ∧ specLoopError fetches = some e) ∧
    (∀ (α : Type) (fetches : List (FetchRet α)) (init : Page α),
      paginateLoop fetches init = none ↔ allGoodWithNext fetches = true) ∧
    (∀ (α : Type) (fetches : List (FetchRet α)),
      getAllVolumePayloadRecords (none : Option (Page α)) fetches = some (none, none)) ∧
    (∀ (α : Type) (fetches : List (FetchRet α)) (init : Page α),
      pageHasNext init = false →
      getAllVolumePayloadRecords (some init) fetches = some (some init, none)) ∧
    (∀ (α : Type) (fetches : List (FetchRet α)) (init : Page α),
      pageHasNext init = true →
      getAllVolumePayloadRecords (some init) fetches = paginateLoop fetches init) ∧
    (∀ (α : Type) (fetches : List (FetchRet α)) (ro : Option (PageOK α)) (e : Err),
      AggregateList (ro, some e) fetches = some (none, some e)) ∧
    (∀ (α : Type) (fetches : List (FetchRet α)),
      AggregateList ((none : Option (PageOK α)), none) fetches = some (none, none)) ∧
    (∀ (α : Type) (fetches : List (FetchRet α)) (okp : PageOK α) (p : Page α),
      okp.payload = some p → pageHasNext p = false →
      AggregateList (some okp, none) fetches = some (some (some p), none)) ∧
    (∀ (α : Type) (fetches : List (FetchRet α)) (okp : PageOK α) (p : Page α),
      okp.payload = some p → pageHasNext p = true →
      AggregateList (some okp, none) fetches =
        (paginateLoop fetches p).map fun r => (r.1.map some, r.2)) := by
  refine ⟨?_, ?_, ?_, ?_, ?_, ?_, ?_, ?_, ?_, ?_⟩
  · intro α fetches init p h
    have hc := paginateLoop_characterization fetches init
    rw [h] at hc
    match hse : specLoopError fetches with
    | some e =>
      rw [hse] at hc
      exact absurd hc (by simp)
    | none =>
      rw [hse] at hc
      by_cases hag : allGoodWithNext fetches
      · simp [hag] at hc
      · simp [hag] at hc
        refine ⟨rfl, hc, ?_, ?_⟩
        · rw [hc]
          show ((specMergedPages fetches).foldl
              (fun r q => goAppend r q.records) init.records).getD [] = _
          exact foldl_goAppend_getD (specMergedPages fetches) init.records
        · rw [hc, mergeResult]
  · intro α fetches init r e h
    have hc := paginateLoop_characterization fetches init
    rw [h] at hc
    match hse : specLoopError fetches with
    | some e2 =>
      rw [hse] at hc
      simp at hc
      exact ⟨hc.1, hc.2 ▸ rfl⟩
    | none =>
      rw [hse] at hc
      by_cases hag : allGoodWithNext fetches
      · simp [hag] at hc
      · simp [hag] at hc
  · intro α fetches init
    constructor
    · intro h
      have hc := paginateLoop_characterization fetches init
      rw [h] at hc
      match hse : specLoopError fetches with
      | some e =>
        rw [hse] at hc
        exact absurd hc (by simp)
      | none =>
        rw [hse] at hc
        by_cases hag : allGoodWithNext fetches
        · exact hag
        · simp [hag] at hc
    · intro h
      have hc := paginateLoop_characterization fetches init
      rw [specLoopError_of_allGood fetches h] at hc
      rw [hc]
      simp [h]
  · intro α fetches
    rfl
  · intro α fetches init h
    rw [getAllVolumePayloadRecords, h]
    rfl
  · intro α fetches init h
    rw [getAllVolumePayloadRecords, h]
    rfl
  · intro α fetches ro e
    cases ro <;> rfl
  · intro α fetches
    rfl
  · intro α fetches okp p hp hnx
    rw [AggregateList]
    simp only [hp, hnx]
    rfl
  · intro α fetches okp p hp hnx
    rw [AggregateList]
    simp only [hp, hnx, if_true]
    cases hpl : paginateLoop fetches p with
    | none => rfl
    | some r =>
      obtain ⟨res, err⟩ := r
      rfl

/-- Witness for C4 at concrete inputs: one followed page without a further
link merges into the initial page (records concatenated, counts summed). -/
theorem pagination_merge_spec_witness :
    specLoopError [((some ⟨some ⟨some 2, some [20, 30], none⟩⟩ : Option (PageOK ℕ)),
      (none : Option Err))] = none ∧
    (⟨some 3, some [10, 20, 30], some ⟨some ⟨"/n"⟩⟩⟩ : Page ℕ) =
      mergeResult (⟨some 1, some [10], some ⟨some ⟨"/n"⟩⟩⟩ : Page ℕ)
        (specMergedPages [((some ⟨some ⟨some 2, some [20, 30], none⟩⟩ : Option (PageOK ℕ)),
          (none : Option Err))]) ∧
    (⟨some 3, some [10, 20, 30], some ⟨some ⟨"/n"⟩⟩⟩ : Page ℕ).records.getD [] =
      (⟨some 1, some [10], some ⟨some ⟨"/n"⟩⟩⟩ : Page ℕ).records.getD [] ++
        ((specMergedPages [((some ⟨some ⟨some 2, some [20, 30], none⟩⟩ : Option (PageOK ℕ)),
          (none : Option Err))]).flatMap fun q => q.records.getD []) ∧
    (⟨some 3, some [10, 20, 30], some ⟨some ⟨"/n"⟩⟩⟩ : Page ℕ).numRecords =
      (if (specMergedPages [((some ⟨some ⟨some 2, some [20, 30], none⟩⟩ : Option (PageOK ℕ)),
          (none : Option Err))]).isEmpty
        then (⟨some 1, some [10], some ⟨some ⟨"/n"⟩⟩⟩ : Page ℕ).numRecords
        else some ((⟨some 1, some [10], some ⟨some ⟨"/n"⟩⟩⟩ : Page ℕ).numRecords.getD 0 +
          ((specMergedPages [((some ⟨some ⟨some 2, some [20, 30], none⟩⟩ : Option (PageOK ℕ)),
            (none : Option Err))]).map fun q => q.numRecords.getD 0).sum)) :=
  pagination_merge_spec.1 ℕ
    [((some ⟨some ⟨some 2, some [20, 30], none⟩⟩ : Option (PageOK ℕ)), (none : Option Err))]
    (⟨some 1, some [10], some ⟨some ⟨"/n"⟩⟩⟩ : Page ℕ)
    (⟨some 3, some [10, 20, 30], some ⟨some ⟨"/n"⟩⟩⟩ : Page ℕ)
    (by decide)

/-- For a known style, the style and state validation passes and the query
pipeline reduces to the initial fetch plus pagination. -/
theorem getAllVolumes_valid_style (style : String)
    (hstyle : style = VolumeStyleFlexvol ∨ style = VolumeStyleFlexgroup)
    (initial : FetchRet Volume) (fetches : List (FetchRet Volume)) :
    getAllVolumesByPatternStyleAndState style VolumeStateOnline initial fetches =
      (match initial with
       | (_, some e) => some (none, some e)
       | (none, none) => some (none, none)
       | (some okp, none) =>
         match getAllVolumePayloadRecords okp.payload fetches with
         | none => none
         | some (newPayload, err) => some (some ⟨newPayload⟩, err)) := by
  rcases hstyle with h | h <;> subst h <;>
    rw [getAllVolumesByPatternStyleAndState.eq_def, if_neg (by decide), if_neg (by decide)]

/-- C8: `getVolumeByNameAndStyle` returns `(nil, nil)` when the by-pattern
query matches zero volumes or yields a nil/empty payload, the single record
(with nil error) when exactly one volume matches, and an error when more
than one matches; and `checkVolumeExistsByNameAndStyle` returns
`(false, nil)` for the empty volume name without issuing any REST call (its
result is the same whatever the REST oracles answer). -/
theorem getVolumeByName_unique_spec :
    (∀ (style : String) (initial : FetchRet Volume) (fetches : List (FetchRet Volume)),
      checkVolumeExistsByNameAndStyle "" style initial fetches =
        some (.ret (false, none))) ∧
    (∀ (volumeName style : String) (fetches : List (FetchRet Volume)),
      (style = VolumeStyleFlexvol ∨ style = VolumeStyleFlexgroup) →
      getVolumeByNameAndStyle volumeName style (none, none) fetches =
        some (.ret (none, none))) ∧
    (∀ (volumeName style : String) (fetches : List (FetchRet Volume)),
      (style = VolumeStyleFlexvol ∨ style = VolumeStyleFlexgroup) →
      getVolumeByNameAndStyle volumeName style (some ⟨none⟩, none) fetches =
        some (.ret (none, none))) ∧
    (∀ (volumeName style : String) (fetches : List (FetchRet Volume)) (p : Page Volume),
      (style = VolumeStyleFlexvol ∨ style = VolumeStyleFlexgroup) →
      pageHasNext p = false → p.numRecords = none →
      getVolumeByNameAndStyle volumeName style (some ⟨some p⟩, none) fetches =
        some (.ret (none, none))) ∧
    (∀ (volumeName style : String) (fetches : List (FetchRet Volume)) (p : Page Volume),
      (style = VolumeStyleFlexvol ∨ style = VolumeStyleFlexgroup) →
      pageHasNext p = false → p.numRecords = some 0 →
      getVolumeByNameAndStyle volumeName style (some ⟨some p⟩, none) fetches =
        some (.ret (none, none))) ∧
    (∀ (volumeName style : String) (fetches : List (FetchRet Volume)) (p : Page Volume)
        (v : Volume) (rest : List Volume),
      (style = VolumeStyleFlexvol ∨ style = VolumeStyleFlexgroup) →
      pageHasNext p = false → p.numRecords = some 1 → p.records = some (v :: rest) →
      getVolumeByNameAndStyle volumeName style (some ⟨some p⟩, none) fetches =
        some (.ret (some v, none))) ∧
    (∀ (volumeName style : String) (fetches : List (FetchRet Volume)) (p : Page Volume)
        (k : Int),
      (style = VolumeStyleFlexvol ∨ style = VolumeStyleFlexgroup) →
      pageHasNext p = false → p.numRecords = some k → k ≠ 0 → k ≠ 1 →
      getVolumeByNameAndStyle volumeName style (some ⟨some p⟩, none) fetches =
        some (.ret (none, some (.msg
          ("could not find unique volume with name " ++ volumeName))))) := by
  refine ⟨?_, ?_, ?_, ?_, ?_, ?_, ?_⟩
  · intro style initial fetches
    rw [checkVolumeExistsByNameAndStyle, if_pos rfl]
  · intro volumeName style fetches hstyle
    rw [getVolumeByNameAndStyle, getAllVolumes_valid_style style hstyle]
  · intro volumeName style fetches hstyle
    rw [getVolumeByNameAndStyle, getAllVolumes_valid_style style hstyle]
    rfl
  · intro volumeName style fetches p hstyle hnx hk
    rw [getVolumeByNameAndStyle, getAllVolumes_valid_style style hstyle]
    simp [getAllVolumePayloadRecords, hnx, hk]
  · intro volumeName style fetches p hstyle hnx hk
    rw [getVolumeByNameAndStyle, getAllVolumes_valid_style style hstyle]
    simp [getAllVolumePayloadRecords, hnx, hk]
  · intro volumeName style fetches p v rest hstyle hnx hk hrec
    rw [getVolumeByNameAndStyle, getAllVolumes_valid_style style hstyle]
    simp [getAllVolumePayloadRecords, hnx, hk, hrec]
  · intro volumeName style fetches p k hstyle hnx hk hk0 hk1
    rw [getVolumeByNameAndStyle, getAllVolumes_valid_style style hstyle]
    simp [getAllVolumePayloadRecords, hnx, hk, hk0, hk1]

/-- Witness for C8 at concrete inputs: a one-record single-page result
yields that record, and the empty name yields `(false, nil)`. -/
theorem getVolumeByName_unique_spec_witness :
    getVolumeByNameAndStyle "vol1" "flexvol"
      (some ⟨some ⟨some 1, some [⟨some "uuid1", some "vol1", some 100, none⟩], none⟩⟩, none)
      [] = some (.ret (some ⟨some "uuid1", some "vol1", some 100, none⟩, none)) :=
  getVolumeByName_unique_spec.2.2.2.2.2.1 "vol1" "flexvol" []
    ⟨some 1, some [⟨some "uuid1", some "vol1", some 100, none⟩], none⟩
    ⟨some "uuid1", some "vol1", some 100, none⟩ [] (Or.inl rfl) (by decide) rfl rfl

/-- C5 (counterexample): the claim's "every derived mutating volume
operation ... if the by-name lookup ... finds no volume, the operation
returns an error" fails on the code: `unmountVolumeByNameAndStyle` is such
an operation, and when its lookup finds no volume it only logs a warning
and returns the nil error in hand — nil, not an error (and still no
mutating REST call: the result below is the same whatever the mutation
oracle, here `(none, none)`, would answer). -/
theorem mutating_ops_missing_volume_counterexample :
    unmountVolumeByNameAndStyle (none, none) (none, none) (fun _ => (none, none))
      (none, none) (fun _ => 1000) = some (.ret none) :=
  rfl

/-- C5 (amended): the derived mutating volume operations are the
straight-line sequence lookup, one request, one REST call, job poll: a
failed by-name lookup returns that error before issuing any mutating REST
call (the result does not depend on the mutation or polling oracles), and
an empty lookup likewise returns before any mutating call — with an error
from `setVolumeSizeByNameAndStyle` and `destroyVolumeByNameAndStyle`, but
with nil from `unmountVolumeByNameAndStyle`, which only warns there; with a
found volume, a mutation error is propagated and an accepted mutation's
result is exactly the job poll. -/
theorem mutating_ops_straight_line_spec :
    (∀ (ro : Option Volume) (e : Err) (modify : AcceptedRet) (jobGet : ℕ → JobGetRet)
        (finalFetch : JobGetRet) (sleeps : ℕ → ℕ),
      setVolumeSizeByNameAndStyle (ro, some e) modify jobGet finalFetch sleeps =
        some (.ret (some e))) ∧
    (∀ (modify : AcceptedRet) (jobGet : ℕ → JobGetRet) (finalFetch : JobGetRet)
        (sleeps : ℕ → ℕ),
      setVolumeSizeByNameAndStyle (none, none) modify jobGet finalFetch sleeps =
        some (.ret (some (.msg "could not find volume with name")))) ∧
    (∀ (v : Volume) (modify : AcceptedRet) (jobGet : ℕ → JobGetRet)
        (finalFetch : JobGetRet) (sleeps : ℕ → ℕ), v.uuid = none →
      setVolumeSizeByNameAndStyle (some v, none) modify jobGet finalFetch sleeps =
        some (.ret (some (.msg "could not find volume uuid with name")))) ∧
    (∀ (v : Volume) (u : String) (ao : Option JobAccepted) (e : Err)
        (jobGet : ℕ → JobGetRet) (finalFetch : JobGetRet) (sleeps : ℕ → ℕ),
      v.uuid = some u →
      setVolumeSizeByNameAndStyle (some v, none) (ao, some e) jobGet finalFetch sleeps =
        some (.ret (some e))) ∧
    (∀ (v : Volume) (u : String) (acc : JobAccepted) (jobGet : ℕ → JobGetRet)
        (finalFetch : JobGetRet) (sleeps : ℕ → ℕ), v.uuid = some u →
      setVolumeSizeByNameAndStyle (some v, none) (some acc, none) jobGet finalFetch sleeps =
        PollJobStatus jobGet finalFetch sleeps acc.payload) ∧
    (∀ (ro : Option Volume) (e : Err) (delete : AcceptedRet) (jobGet : ℕ → JobGetRet)
        (finalFetch : JobGetRet) (sleeps : ℕ → ℕ),
      destroyVolumeByNameAndStyle (ro, some e) delete jobGet finalFetch sleeps =
        some (.ret (some e))) ∧
    (∀ (delete : AcceptedRet) (jobGet : ℕ → JobGetRet) (finalFetch : JobGetRet)
        (sleeps : ℕ → ℕ),
      destroyVolumeByNameAndStyle (none, none) delete jobGet finalFetch sleeps =
        some (.ret (some (.msg "could not find volume: ")))) ∧
    (∀ (v : Volume) (delete : AcceptedRet) (jobGet : ℕ → JobGetRet)
        (finalFetch : JobGetRet) (sleeps : ℕ → ℕ), v.uuid = none →
      destroyVolumeByNameAndStyle (some v, none) delete jobGet finalFetch sleeps =
        some (.ret (some (.msg "could not find volume uuid: ")))) ∧
    (∀ (v : Volume) (u : String) (ao : Option JobAccepted) (e : Err)
        (jobGet : ℕ → JobGetRet) (finalFetch : JobGetRet) (sleeps : ℕ → ℕ),
      v.uuid = some u →
      destroyVolumeByNameAndStyle (some v, none) (ao, some e) jobGet finalFetch sleeps =
        some (.ret (some e))) ∧
    (∀ (v : Volume) (u : String) (acc : JobAccepted) (jobGet : ℕ → JobGetRet)
        (finalFetch : JobGetRet) (sleeps : ℕ → ℕ), v.uuid = some u →
      destroyVolumeByNameAndStyle (some v, none) (some acc, none) jobGet finalFetch sleeps =
        PollJobStatus jobGet finalFetch sleeps acc.payload) ∧
    (∀ (ro : Option Volume) (e : Err) (modify : AcceptedRet) (jobGet : ℕ → JobGetRet)
        (finalFetch : JobGetRet) (sleeps : ℕ → ℕ),
      unmountVolumeByNameAndStyle (ro, some e) modify jobGet finalFetch sleeps =
        some (.ret (some e))) ∧
    (∀ (modify : AcceptedRet) (jobGet : ℕ → JobGetRet) (finalFetch : JobGetRet)
        (sleeps : ℕ → ℕ),
      unmountVolumeByNameAndStyle (none, none) modify jobGet finalFetch sleeps =
        some (.ret none)) := by
  refine ⟨?_, ?_, ?_, ?_, ?_, ?_, ?_, ?_, ?_, ?_, ?_, ?_⟩
  · intro ro e modify jobGet finalFetch sleeps
    cases ro <;> rfl
  · intro modify jobGet finalFetch sleeps
    rfl
  · intro v modify jobGet finalFetch sleeps h
    simp [setVolumeSizeByNameAndStyle, h]
  · intro v u ao e jobGet finalFetch sleeps h
    cases ao <;> simp [setVolumeSizeByNameAndStyle, h]
  · intro v u acc jobGet finalFetch sleeps h
    simp [setVolumeSizeByNameAndStyle, h]
  · intro ro e delete jobGet finalFetch sleeps
    cases ro <;> rfl
  · intro delete jobGet finalFetch sleeps
    rfl
  · intro v delete jobGet finalFetch sleeps h
    simp [destroyVolumeByNameAndStyle, h]
  · intro v u ao e jobGet finalFetch sleeps h
    cases ao <;> simp [destroyVolumeByNameAndStyle, h]
  · intro v u acc jobGet finalFetch sleeps h
    simp [destroyVolumeByNameAndStyle, h]
  · intro ro e modify jobGet finalFetch sleeps
    cases ro <;> rfl
  · intro modify jobGet finalFetch sleeps
    rfl

/-- Witness for C5 at concrete inputs: an empty lookup returns the
missing-volume error for any mutation oracle. -/
theorem mutating_ops_straight_line_spec_witness :
    setVolumeSizeByNameAndStyle (some ⟨none, some "vol1", none, none⟩, none) (none, none)
      (fun _ => (none, none)) (none, none) (fun _ => 1000) =
      some (.ret (some (.msg "could not find volume uuid with name"))) :=
  mutating_ops_straight_line_spec.2.2.1 ⟨none, some "vol1", none, none⟩ (none, none)
    (fun _ => (none, none)) (none, none) (fun _ => 1000) rfl

/-- C9: evaluation at the failing input. The guard the claim requires is
present in `setVolumeSizeByNameAndStyle` (an error is returned), but
`renameVolumeByNameAndStyle` and `setVolumeQosPolicyGroupNameByNameAndStyle`
repeat the `volume == nil` check instead of checking `volume.UUID == nil`
and dereference the nil UUID: a nil-pointer panic, not an error. -/
theorem nil_uuid_guard_divergence :
    renameVolumeByNameAndStyle (some ⟨none, some "vol1", none, none⟩, none) (none, none)
      (fun _ => (none, none)) (none, none) (fun _ => 1000) = some .panicked ∧
    setVolumeQosPolicyGroupNameByNameAndStyle (some ⟨none, some "vol1", none, none⟩, none)
      ⟨1, "qos1"⟩ (none, none) (fun _ => (none, none)) (none, none) (fun _ => 1000) =
      some .panicked ∧
    setVolumeSizeByNameAndStyle (some ⟨none, some "vol1", none, none⟩, none) (none, none)
      (fun _ => (none, none)) (none, none) (fun _ => 1000) =
      some (.ret (some (.msg "could not find volume uuid with name"))) :=
  ⟨rfl, rfl, rfl⟩

/-- C10: mounting and unmounting are idempotent at the REST boundary:
`mountVolumeByNameAndStyle` returns nil without issuing a volume-modify
call (its result does not depend on the mutation or polling oracles) when
the looked-up volume's NAS path already equals the requested junction path,
and `unmountVolumeByNameAndStyle` returns nil likewise when the volume's
NAS path is already the empty string. -/
theorem mount_unmount_idempotent_spec :
    (∀ (junctionPath : String) (v : Volume) (u : String) (nas : VolumeNas)
        (modify : AcceptedRet) (jobGet : ℕ → JobGetRet) (finalFetch : JobGetRet)
        (sleeps : ℕ → ℕ),
      v.uuid = some u → v.nas = some nas → nas.path = some junctionPath →
      mountVolumeByNameAndStyle junctionPath (some v, none) modify jobGet finalFetch
        sleeps = some (.ret none)) ∧
    (∀ (v : Volume) (u : String) (nas : VolumeNas) (modify : AcceptedRet)
        (jobGet : ℕ → JobGetRet) (finalFetch : JobGetRet) (sleeps : ℕ → ℕ),
      v.uuid = some u → v.nas = some nas → nas.path = some "" →
      unmountVolumeByNameAndStyle (some v, none) modify jobGet finalFetch sleeps =
        some (.ret none)) := by
  constructor
  · intro junctionPath v u nas modify jobGet finalFetch sleeps hu hn hp
    simp [mountVolumeByNameAndStyle, hu, hn, hp]
  · intro v u nas modify jobGet finalFetch sleeps hu hn hp
    simp [unmountVolumeByNameAndStyle, hu, hn, hp]

/-- Witness for C10 at concrete inputs: a volume already mounted at "/vol1"
(and one already unmounted) return nil. -/
theorem mount_unmount_idempotent_spec_witness :
    mountVolumeByNameAndStyle "/vol1"
      (some ⟨some "uuid1", some "vol1", none, some ⟨some "/vol1"⟩⟩, none) (none, none)
      (fun _ => (none, none)) (none, none) (fun _ => 1000) = some (.ret none) ∧
    unmountVolumeByNameAndStyle
      (some ⟨some "uuid1", some "vol1", none, some ⟨some ""⟩⟩, none) (none, none)
      (fun _ => (none, none)) (none, none) (fun _ => 1000) = some (.ret none) :=
  ⟨mount_unmount_idempotent_spec.1 "/vol1" ⟨some "uuid1", some "vol1", none,
      some ⟨some "/vol1"⟩⟩ "uuid1" ⟨some "/vol1"⟩ (none, none) (fun _ => (none, none))
      (none, none) (fun _ => 1000) rfl rfl rfl,
   mount_unmount_idempotent_spec.2 ⟨some "uuid1", some "vol1", none, some ⟨some ""⟩⟩
      "uuid1" ⟨some ""⟩ (none, none) (fun _ => (none, none)) (none, none)
      (fun _ => 1000) rfl rfl rfl⟩

/-- C6: `createVolumeByStyle` returns success only after the creation job
reaches the terminal success state (the poll converged and the re-fetched
job state is "success") and the chosen existence wait then succeeded; the
FlexGroup wait is selected exactly when the requested style is flexgroup,
otherwise the FlexVol wait; and a job-poll error is returned as is, without
performing any existence wait (the result does not depend on the waits). -/
theorem createVolume_job_then_wait_spec :
    (∀ (style : String) (createRes : AcceptedRet) (jobGet : ℕ → JobGetRet)
        (finalFetch : JobGetRet) (sleeps : ℕ → ℕ) (waitVol waitFg : Option Err),
      createVolumeByStyle style createRes jobGet finalFetch sleeps waitVol waitFg =
        some (.ret none) →
      ∃ acc : JobAccepted, createRes = (some acc, none) ∧
        PollJobStatus jobGet finalFetch sleeps acc.payload = some (.ret none) ∧
        (∃ u j, acc.payload = validJobPayload u ∧
          PollLoopConverged jobGet acc.payload u sleeps ∧
          finalFetch = (some ⟨some j⟩, none) ∧ j.state = some JobStateSuccess) ∧
        (if style = VolumeStyleFlexgroup then waitFg else waitVol) = none) ∧
    (∀ (style : String) (acc : JobAccepted) (jobGet : ℕ → JobGetRet)
        (finalFetch : JobGetRet) (sleeps : ℕ → ℕ) (waitVol waitFg : Option Err),
      PollJobStatus jobGet finalFetch sleeps acc.payload = some (.ret none) →
      createVolumeByStyle style (some acc, none) jobGet finalFetch sleeps waitVol waitFg =
        some (.ret (if style = VolumeStyleFlexgroup then waitFg else waitVol))) ∧
    (∀ (style : String) (acc : JobAccepted) (e : Err) (jobGet : ℕ → JobGetRet)
        (finalFetch : JobGetRet) (sleeps : ℕ → ℕ) (waitVol waitFg : Option Err),
      PollJobStatus jobGet finalFetch sleeps acc.payload = some (.ret (some e)) →
      createVolumeByStyle style (some acc, none) jobGet finalFetch sleeps waitVol waitFg =
        some (.ret (some e))) := by
  refine ⟨?_, ?_, ?_⟩
  · intro style createRes jobGet finalFetch sleeps wv wf h
    obtain ⟨cro, cer⟩ := createRes
    cases cer with
    | some e => exact absurd h (by cases cro <;> simp [createVolumeByStyle])
    | none =>
      cases cro with
      | none => exact absurd h (by simp [createVolumeByStyle])
      | some acc =>
        refine ⟨acc, rfl, ?_⟩
        have hb : createVolumeByStyle style (some acc, none) jobGet finalFetch sleeps
            wv wf =
            (match PollJobStatus jobGet finalFetch sleeps acc.payload with
             | none => none
             | some .panicked => some .panicked
             | some (.ret (some e)) => some (.ret (some e))
             | some (.ret none) =>
               if style = VolumeStyleFlexgroup then some (.ret wf)
               else some (.ret wv)) := rfl
        rw [hb] at h
        match hpoll : PollJobStatus jobGet finalFetch sleeps acc.payload with
        | none => rw [hpoll] at h; exact absurd h (by simp)
        | some .panicked => rw [hpoll] at h; exact absurd h (by simp)
        | some (.ret (some e)) => rw [hpoll] at h; exact absurd h (by simp)
        | some (.ret none) =>
          rw [hpoll] at h
          refine ⟨rfl,
            (pollJobStatus_ret_none_iff jobGet finalFetch sleeps acc.payload).mp hpoll, ?_⟩
          by_cases hst : style = VolumeStyleFlexgroup
          · simp [hst] at h
            simp [hst, h]
          · simp [hst] at h
            simp [hst, h]
  · intro style acc jobGet finalFetch sleeps wv wf h
    have hb : createVolumeByStyle style (some acc, none) jobGet finalFetch sleeps
        wv wf =
        (match PollJobStatus jobGet finalFetch sleeps acc.payload with
         | none => none
         | some .panicked => some .panicked
         | some (.ret (some e)) => some (.ret (some e))
         | some (.ret none) =>
           if style = VolumeStyleFlexgroup then some (.ret wf)
           else some (.ret wv)) := rfl
    rw [hb, h]
    by_cases hst : style = VolumeStyleFlexgroup <;> simp [hst]
  · intro style acc e jobGet finalFetch sleeps wv wf h
    have hb : createVolumeByStyle style (some acc, none) jobGet finalFetch sleeps
        wv wf =
        (match PollJobStatus jobGet finalFetch sleeps acc.payload with
         | none => none
         | some .panicked => some .panicked
         | some (.ret (some e)) => some (.ret (some e))
         | some (.ret none) =>
           if style = VolumeStyleFlexgroup then some (.ret wf)
           else some (.ret wv)) := rfl
    rw [hb, h]

/-- Witness for C6 at concrete inputs: a created flexvol whose job polls to
"success" runs the FlexVol existence wait (here nil) and not the FlexGroup
wait (here an error). -/
theorem createVolume_job_then_wait_spec_witness :
    createVolumeByStyle "flexvol" (some ⟨validJobPayload "u1"⟩, none)
      (fun _ => (some ⟨some ⟨some "success", none, none⟩⟩, none))
      (some ⟨some ⟨some "success", none, none⟩⟩, none) (fun _ => 1000) none
      (some (.msg "flexgroup wait must not run")) =
      some (.ret (if "flexvol" = VolumeStyleFlexgroup then
        some (.msg "flexgroup wait must not run") else none)) :=
  createVolume_job_then_wait_spec.2.1 "flexvol" ⟨validJobPayload "u1"⟩
    (fun _ => (some ⟨some ⟨some "success", none, none⟩⟩, none))
    (some ⟨some ⟨some "success", none, none⟩⟩, none) (fun _ => 1000) none
    (some (.msg "flexgroup wait must not run"))
    (by decide)

end TridentRest
